import Mathlib

set_option autoImplicit false

/-!
Verification development for the `pi` OpenTelemetry extension
(`packages/pi/extensions/opentelemetry`): a shallow embedding of the
telemetry utilities, the span lifecycle controller, the rollup
aggregator and the batched exporter, together with proofs of the
behavioural properties stated in the specification.

Modelling conventions (used throughout):
* JavaScript strings are modelled by Lean `String` / `List Char`; the
  UTF-16 code-unit length coincides with the character count for all
  inputs considered here.
* JavaScript `number` is modelled by `Rat` throughout; IEEE-754
  rounding is outside the scope of the claims proved here (the numbers
  the claims touch are integer counters and millisecond timestamps).
* The random 128/64-bit hex ids produced by `genTraceId`/`genSpanId`
  are modelled by a fresh-id counter: each generated id is a `Nat`
  distinct from every previously generated one.
* `Map`/`Set`/object mutation is modelled by insertion-ordered
  association lists, matching JavaScript iteration order.
-/

/-! ## utils.ts -/

def MAX_TEXT_LENGTH : Nat := 10000
def MAX_COMMAND_LENGTH : Nat := 2000
def MAX_OUTPUT_LENGTH : Nat := 5000

structure TruncateResult where
  text : String
  length : Nat
  truncated : Bool
deriving Repr, DecidableEq

/-- Marker appended by `truncate` (utils.ts line 26). -/
def truncMarker : String := "…[truncated]"

/-- Embedding of `truncate` (utils.ts lines 23-28): report the original
length, and cut the text at `maxLength` characters, appending the
truncation marker, whenever it is longer than the bound. -/
def truncate (value : String) (maxLength : Nat) : TruncateResult :=
  let length := value.length
  let truncated := decide (length > maxLength)
  let text :=
    if length > maxLength then String.mk (value.data.take maxLength) ++ truncMarker
    else value
  { text := text, length := length, truncated := truncated }

/-- Characters treated as whitespace by the JavaScript regexp `\s`
(the source trims before splitting, so only these separators are ever
relevant). -/
def jsWhitespace (c : Char) : Bool :=
  c = ' ' || c = '\t' || c = '\n' || c = '\r' || c = '\x0b' || c = '\x0c' ||
  c = ' ' || c = '﻿'

/-- JavaScript `String.prototype.trim`. -/
def trimL (l : List Char) : List Char :=
  ((l.dropWhile jsWhitespace).reverse.dropWhile jsWhitespace).reverse

/-- Accumulator worker for `splitWsL`. -/
def wordsAux : List Char → List Char → List (List Char)
  | [], cur => if cur.isEmpty then [] else [cur.reverse]
  | c :: rest, cur =>
    if jsWhitespace c then
      if cur.isEmpty then wordsAux rest [] else cur.reverse :: wordsAux rest []
    else wordsAux rest (c :: cur)

/-- JavaScript `split(/\s+/)` restricted to trimmed input (the source
always trims first), i.e. the maximal whitespace-free words. -/
def splitWsL (l : List Char) : List (List Char) :=
  wordsAux l []

/-- JavaScript `first.replace(/^\.\//, "")`: drop one leading `./`. -/
def dropDotSlash (l : List Char) : List Char :=
  match l with
  | '.' :: '/' :: rest => rest
  | l => l

/-- Embedding of `extractCommand` (utils.ts lines 30-51). -/
def extractCommand (cmd : String) : String :=
  let trimmed := trimL cmd.data
  if trimmed.isEmpty then "n/a"
  else
    match splitWsL trimmed with
    | [] => "n/a"
    | first :: restParts =>
      if first.isEmpty then "n/a"
      else
        let base := dropDotSlash first
        if base.isEmpty then "n/a"
        else
          match restParts with
          | [] => String.mk base
          | sub :: _ =>
            if !sub.isEmpty && sub.head? != some '-' then String.mk (base ++ '.' :: sub)
            else String.mk base

/-- The command-normalization rule exactly as the specification words
it: trim; split on whitespace; drop a leading `./` from the first
token; if a second token exists and does not start with `-`, the label
is `base.subcommand`, else just `base`; empty input maps to `n/a`.
(The no-token case is unreachable for non-empty trimmed input and is
mapped to the sentinel as well.) -/
def extractCommandSpecC6 (cmd : String) : String :=
  let trimmed := trimL cmd.data
  if trimmed.isEmpty then "n/a"
  else
    match splitWsL trimmed with
    | [] => "n/a"
    | first :: restParts =>
      let base := dropDotSlash first
      match restParts with
      | [] => String.mk base
      | sub :: _ =>
        if sub.head? != some '-' then String.mk (base ++ '.' :: sub)
        else String.mk base

/-- The specification rule amended with the one clause the code forces:
when dropping `./` leaves an empty base (the first token was exactly
`./`), the result is the sentinel `n/a` rather than the empty label. -/
def extractCommandSpecC6Amended (cmd : String) : String :=
  let trimmed := trimL cmd.data
  if trimmed.isEmpty then "n/a"
  else
    match splitWsL trimmed with
    | [] => "n/a"
    | first :: restParts =>
      let base := dropDotSlash first
      if base.isEmpty then "n/a"
      else
        match restParts with
        | [] => String.mk base
        | sub :: _ =>
          if sub.head? != some '-' then String.mk (base ++ '.' :: sub)
          else String.mk base

/-- Embedding of `modelKey` (utils.ts line 69). -/
def modelKey (provider : String) (id : String) : String :=
  provider ++ "/" ++ id

/-! ## JavaScript values and the dynamic accessors of utils.ts -/

/-- Shallow model of a JavaScript runtime value (`unknown` payload
fields). Objects and arrays are insertion-ordered. -/
inductive JsVal where
  | str (s : String)
  | num (q : Rat)
  | bool (b : Bool)
  | null
  | arr (elems : List JsVal)
  | obj (fields : List (String × JsVal))

/-- Association-list lookup (JavaScript object property / `Map.get`). -/
def getAssoc {α : Type} : List (String × α) → String → Option α
  | [], _ => none
  | (k', v) :: rest, k => if k' = k then some v else getAssoc rest k

/-- Association-list update with JavaScript object/`Map` semantics: an
existing key keeps its position, a new key is appended. -/
def setAssoc {α : Type} : List (String × α) → String → α → List (String × α)
  | [], k, v => [(k, v)]
  | (k', v') :: rest, k, v =>
    if k' = k then (k', v) :: rest else (k', v') :: setAssoc rest k v

/-- Association-list removal (`Map.delete`), preserving the order of
the remaining entries. -/
def eraseAssoc {α : Type} : List (String × α) → String → List (String × α)
  | [], _ => []
  | (k', v') :: rest, k =>
    if k' = k then rest else (k', v') :: eraseAssoc rest k

/-- Embedding of `isRecord` (utils.ts lines 84-86): a non-null,
non-array object. -/
def isRecord : JsVal → Bool
  | .obj _ => true
  | _ => false

/-- Embedding of `getString` (utils.ts lines 88-94). -/
def getString (v : JsVal) (key : String) : Option String :=
  match v with
  | .obj fields =>
    match getAssoc fields key with
    | some (.str s) => some s
    | _ => none
  | _ => none

/-- Embedding of `getNumber` (utils.ts lines 96-102). -/
def getNumber (v : JsVal) (key : String) : Option Rat :=
  match v with
  | .obj fields =>
    match getAssoc fields key with
    | some (.num q) => some q
    | _ => none
  | _ => none

/-- Embedding of `getNestedNumber` (utils.ts lines 104-114). -/
def getNestedNumber (v : JsVal) (key1 : String) (key2 : String) : Option Rat :=
  match v with
  | .obj fields =>
    match getAssoc fields key1 with
    | some nested => getNumber nested key2
    | _ => none
  | _ => none

/-- Rendering of a JavaScript number (`String(n)` / `JSON.stringify`).
The only numbers the source ever renders are integers (timestamps and
counters); the rendering of non-integral doubles is abstracted by the
`Rat` notation. -/
def jsNumToString (q : Rat) : String :=
  if q.den = 1 then toString q.num else toString q

/-- JSON string escaping for `jsonStringify` (double quote, backslash
and the common control characters; other characters are emitted
verbatim). -/
def jsonQuoteChar (c : Char) : List Char :=
  if c = '"' then ['\\', '"']
  else if c = '\\' then ['\\', '\\']
  else if c = '\n' then ['\\', 'n']
  else if c = '\r' then ['\\', 'r']
  else if c = '\t' then ['\\', 't']
  else [c]

def jsonQuote (s : String) : String :=
  String.mk ('"' :: (s.data.map jsonQuoteChar).flatten ++ ['"'])

mutual
/-- Shallow model of `JSON.stringify` on the payload values above
(used by the tool-attribute extractor for `tool.input_length` and
`tool.input`; its output is never inspected by any claim). -/
def jsonStringify : JsVal → String
  | .str s => jsonQuote s
  | .num q => jsNumToString q
  | .bool b => cond b "true" "false"
  | .null => "null"
  | .arr l => "[" ++ jsonArr l ++ "]"
  | .obj fs => "\x7b" ++ jsonObj fs ++ "\x7d"

def jsonArr : List JsVal → String
  | [] => ""
  | [v] => jsonStringify v
  | v :: v' :: rest => jsonStringify v ++ "," ++ jsonArr (v' :: rest)

def jsonObj : List (String × JsVal) → String
  | [] => ""
  | [(k, v)] => jsonQuote k ++ ":" ++ jsonStringify v
  | (k, v) :: f :: rest => jsonQuote k ++ ":" ++ jsonStringify v ++ "," ++ jsonObj (f :: rest)
end

/-! ## Span data model (types.ts) -/

inductive SpanKind where
  | internal
  | client
  | server
deriving Repr, DecidableEq

inductive SpanStatus where
  | ok
  | error
  | unset
deriving Repr, DecidableEq

/-- Attribute values: `string | number | boolean`. -/
inductive AttrValue where
  | str (s : String)
  | num (q : Rat)
  | bool (b : Bool)
deriving Repr, DecidableEq

/-- `Record<string, string | number | boolean>` with JavaScript
object-assignment semantics, via `setAttr` below. -/
abbrev AttrMap := List (String × AttrValue)

def setAttr (m : AttrMap) (k : String) (v : AttrValue) : AttrMap :=
  setAssoc m k v

def getAttr (m : AttrMap) (k : String) : Option AttrValue :=
  getAssoc m k

/-- Apply a sequence of attribute assignments in order. -/
def setAttrs (m : AttrMap) (kvs : AttrMap) : AttrMap :=
  kvs.foldl (fun acc kv => setAttr acc kv.1 kv.2) m

/-- Cross-trace link (index.ts lines 156-162; the `links` field used by
`startThread` and the exporter — absent from the stale `Span` record in
types.ts but present on every constructed span). -/
structure SpanLink where
  traceId : Nat
  spanId : Nat
  attributes : AttrMap
deriving Repr, DecidableEq

/-- Embedding of `Span` (types.ts lines 1-12) plus the `links` field
assigned by `startThread`. Random hex ids are modelled by `Nat` drawn
from a fresh-id counter. -/
structure Span where
  traceId : Nat
  spanId : Nat
  parentSpanId : Option Nat
  name : String
  kind : SpanKind
  startTimeMs : Rat
  endTimeMs : Option Rat
  durationMs : Option Rat
  status : SpanStatus
  attributes : AttrMap
  links : Option (List SpanLink)
deriving Repr, DecidableEq

/-- The string stored by `span.attributes["status"] = status`. -/
def statusString : SpanStatus → String
  | .ok => "ok"
  | .error => "error"
  | .unset => "unset"

/-! ## Rollups (rollups.ts) -/

/-- Counter maps (`Map<string, number>`), insertion-ordered. -/
abbrev CntMap := List (String × Rat)

/-- Embedding of `incrementMap` (rollups.ts line 822) with an explicit
amount: `map.set(key, (map.get(key) ?? 0) + amount)`. -/
def incrementMapBy (m : CntMap) (key : String) (amount : Rat) : CntMap :=
  setAssoc m key (((getAssoc m key).getD 0) + amount)

/-- `incrementMap` with the default amount `1`. -/
def incrementMap (m : CntMap) (key : String) : CntMap :=
  incrementMapBy m key 1

/-- `Set<string>` insertion (`Set.add`), insertion-ordered. -/
def addSet (l : List String) (x : String) : List String :=
  if x ∈ l then l else l ++ [x]

/-- Embedding of `PromptRollup` (rollups.ts lines 748-773). The three
`thinking*` fields are written by the `turn_end` handler (index.ts
lines 593-595) although they are missing from the record declared in
rollups.ts; they are modelled as ordinary numeric fields starting at 0
and are never folded onto any span. -/
structure PromptRollup where
  turnCount : Rat
  turnDurations : List Rat
  stopReasons : List String
  tokensInput : Rat
  tokensOutput : Rat
  tokensCacheRead : Rat
  tokensCacheWrite : Rat
  costTotal : Rat
  models : List String
  modelSwitchCount : Rat
  toolCount : Rat
  toolErrorCount : Rat
  toolTotalDurationMs : Rat
  toolTruncationCount : Rat
  toolCounts : CntMap
  toolDurations : CntMap
  toolErrors : CntMap
  toolBytes : CntMap
  bashCommands : CntMap
  fileOperations : CntMap
  filesByTool : List (String × CntMap)
  compactionOccurred : Bool
  compactionTokensBefore : Rat
  compactionFromExtension : Bool
  thinkingTurnsWithThinking : Rat
  thinkingBlockCount : Rat
  thinkingTotalLength : Rat
deriving Repr, DecidableEq

/-- Embedding of `TurnRollup` (rollups.ts lines 775-781). -/
structure TurnRollup where
  toolCount : Rat
  toolErrorCount : Rat
  toolCounts : CntMap
  bashCommands : CntMap
  fileOperations : CntMap
deriving Repr, DecidableEq

/-- Embedding of `createPromptRollup` (rollups.ts lines 783-810). -/
def createPromptRollup : PromptRollup :=
  { turnCount := 0
    turnDurations := []
    stopReasons := []
    tokensInput := 0
    tokensOutput := 0
    tokensCacheRead := 0
    tokensCacheWrite := 0
    costTotal := 0
    models := []
    modelSwitchCount := 0
    toolCount := 0
    toolErrorCount := 0
    toolTotalDurationMs := 0
    toolTruncationCount := 0
    toolCounts := []
    toolDurations := []
    toolErrors := []
    toolBytes := []
    bashCommands := []
    fileOperations := []
    filesByTool := []
    compactionOccurred := false
    compactionTokensBefore := 0
    compactionFromExtension := false
    thinkingTurnsWithThinking := 0
    thinkingBlockCount := 0
    thinkingTotalLength := 0 }

/-- Embedding of `createTurnRollup` (rollups.ts lines 812-820). -/
def createTurnRollup : TurnRollup :=
  { toolCount := 0
    toolErrorCount := 0
    toolCounts := []
    bashCommands := []
    fileOperations := [] }

/-- `Math.max(...xs)` over a non-empty list (the `[]` case never occurs
under the source's length guard). -/
def maxRatList : List Rat → Rat
  | [] => 0
  | x :: xs => xs.foldl max x

/-- The attribute assignments performed by `applyPromptRollupToSpan`
(rollups.ts lines 826-897), in source order. -/
def promptRollupAttrs (rollup : PromptRollup) : AttrMap :=
  [("turn.count", .num rollup.turnCount)] ++
  (if rollup.turnDurations.length > 0 then
    let total := rollup.turnDurations.foldl (fun a b => a + b) 0
    [("turn.total_duration_ms", .num total),
     ("turn.avg_duration_ms", .num ((round (total / (rollup.turnDurations.length : Rat)) : Int) : Rat)),
     ("turn.max_duration_ms", .num (maxRatList rollup.turnDurations))]
  else []) ++
  (if rollup.stopReasons.length > 0 then
    [("stop_reasons", .str (String.intercalate "," rollup.stopReasons))]
  else []) ++
  [("tokens.input", .num rollup.tokensInput),
   ("tokens.output", .num rollup.tokensOutput),
   ("tokens.cache_read", .num rollup.tokensCacheRead),
   ("tokens.cache_write", .num rollup.tokensCacheWrite),
   ("tokens.total", .num (rollup.tokensInput + rollup.tokensOutput +
      rollup.tokensCacheRead + rollup.tokensCacheWrite)),
   ("cost.total", .num rollup.costTotal)] ++
  (if rollup.models.length > 0 then
    [("models", .str (String.intercalate "," rollup.models))]
  else []) ++
  [("model.switch_count", .num rollup.modelSwitchCount),
   ("tool.count", .num rollup.toolCount),
   ("tool.error_count", .num rollup.toolErrorCount),
   ("tool.total_duration_ms", .num rollup.toolTotalDurationMs),
   ("tool.unique_count", .num (rollup.toolCounts.length : Rat)),
   ("tool.truncation_count", .num rollup.toolTruncationCount)] ++
  rollup.toolCounts.map (fun tc => ("tool." ++ tc.1 ++ ".count", AttrValue.num tc.2)) ++
  rollup.toolDurations.map (fun td => ("tool." ++ td.1 ++ ".duration_ms", AttrValue.num td.2)) ++
  rollup.toolErrors.map (fun te => ("tool." ++ te.1 ++ ".error_count", AttrValue.num te.2)) ++
  rollup.toolBytes.map (fun tb => ("tool." ++ tb.1 ++ ".bytes_total", AttrValue.num tb.2)) ++
  rollup.bashCommands.map (fun cc => ("bash.cmd." ++ cc.1, AttrValue.num cc.2)) ++
  [("bash.unique_commands", .num (rollup.bashCommands.length : Rat))] ++
  rollup.fileOperations.map (fun fc => ("file." ++ fc.1, AttrValue.num fc.2)) ++
  [("files.unique_count", .num (rollup.fileOperations.length : Rat)),
   ("files.total_operations", .num ((rollup.fileOperations.map (fun fc => fc.2)).foldl (fun a b => a + b) 0))] ++
  (rollup.filesByTool.map (fun tf =>
    tf.2.map (fun fc => ("tool." ++ tf.1 ++ ".file." ++ fc.1, AttrValue.num fc.2)) ++
    [("tool." ++ tf.1 ++ ".unique_files", AttrValue.num (tf.2.length : Rat))])).flatten ++
  [("compaction.occurred", .bool rollup.compactionOccurred)] ++
  (if rollup.compactionOccurred then
    [("compaction.tokens_before", .num rollup.compactionTokensBefore),
     ("compaction.from_extension", .bool rollup.compactionFromExtension)]
  else [])

/-- Embedding of `applyPromptRollupToSpan` (rollups.ts lines 826-897). -/
def applyPromptRollupToSpan (span : Span) (rollup : PromptRollup) : Span :=
  { span with attributes := setAttrs span.attributes (promptRollupAttrs rollup) }

/-- The attribute assignments performed by `applyTurnRollupToSpan`
(rollups.ts lines 899-913), in source order. -/
def turnRollupAttrs (rollup : TurnRollup) : AttrMap :=
  [("turn.tool.count", .num rollup.toolCount),
   ("turn.tool.error_count", .num rollup.toolErrorCount)] ++
  rollup.toolCounts.map (fun tc => ("turn.tool." ++ tc.1 ++ ".count", AttrValue.num tc.2)) ++
  rollup.bashCommands.map (fun cc => ("turn.bash.cmd." ++ cc.1, AttrValue.num cc.2)) ++
  rollup.fileOperations.map (fun fc => ("turn.file." ++ fc.1, AttrValue.num fc.2)) ++
  [("turn.files.unique_count", .num (rollup.fileOperations.length : Rat))]

/-- Embedding of `applyTurnRollupToSpan` (rollups.ts lines 899-913). -/
def applyTurnRollupToSpan (span : Span) (rollup : TurnRollup) : Span :=
  { span with attributes := setAttrs span.attributes (turnRollupAttrs rollup) }

/-! ## Tool-result processing (tool-processing.ts) -/

/-- Content parts of a tool result / assistant message. A `"text"` part
carries its text, a `"thinking"` part its thinking text; parts whose
payload field has the wrong runtime type are modelled as `other`. -/
inductive ContentPart where
  | text (s : String)
  | thinking (s : String)
  | image
  | other
deriving Repr, DecidableEq

/-- Embedding of the `ToolResultEvent` payload fields read by the
extension. -/
structure ToolResultEvent where
  toolCallId : String
  toolName : String
  input : JsVal
  content : List ContentPart
  details : Option JsVal
  isError : Bool

/-- The first `"text"` content part's text, if any
(`content.find((c) => c.type === "text")` followed by the string
check). -/
def firstTextContent (content : List ContentPart) : Option String :=
  match content with
  | [] => none
  | .text s :: _ => some s
  | _ :: rest => firstTextContent rest

/-- Whether an `"image"` content part exists
(`content.find((c) => c.type === "image") !== undefined`). -/
def hasImageContent (content : List ContentPart) : Bool :=
  match content with
  | [] => false
  | .image :: _ => true
  | _ :: rest => hasImageContent rest

/-- Embedding of `processToolResult` (tool-processing.ts lines 15-71).
The second component is the updated turn rollup when the handler was
given a live (non-null) one. -/
def processToolResult (event : ToolResultEvent) (rollup : PromptRollup)
    (turnRollup : Option TurnRollup) : PromptRollup × Option TurnRollup :=
  let toolName := event.toolName
  let input := event.input
  let st := (rollup, turnRollup)
  let st :=
    if toolName = "read" ∨ toolName = "edit" ∨ toolName = "write" then
      match getString input "path" with
      | some filePath =>
        if filePath ≠ "" then
          let r := st.1
          let r := { r with fileOperations := incrementMap r.fileOperations filePath }
          let t := st.2.map (fun t => { t with fileOperations := incrementMap t.fileOperations filePath })
          let toolFiles := (getAssoc r.filesByTool toolName).getD []
          let r := { r with filesByTool := setAssoc r.filesByTool toolName (incrementMap toolFiles filePath) }
          (r, t)
        else st
      | none => st
    else st
  let st :=
    if toolName = "bash" then
      match getString input "command" with
      | some command =>
        if command ≠ "" then
          let parsed := extractCommand command
          let r := { st.1 with bashCommands := incrementMap st.1.bashCommands parsed }
          let t := st.2.map (fun t => { t with bashCommands := incrementMap t.bashCommands parsed })
          (r, t)
        else st
      | none => st
    else st
  let st :=
    match event.details with
    | some details =>
      if isRecord details then
        match details with
        | .obj fields =>
          match getAssoc fields "truncation" with
          | some (.obj tfields) =>
            match getAssoc tfields "truncated" with
            | some (.bool true) =>
              ({ st.1 with toolTruncationCount := st.1.toolTruncationCount + 1 }, st.2)
            | _ => st
          | _ => st
        | _ => st
      else st
    | none => st
  let st :=
    if toolName = "read" ∨ toolName = "write" then
      if event.content.length > 0 then
        match firstTextContent event.content with
        | some text =>
          ({ st.1 with toolBytes := incrementMapBy st.1.toolBytes toolName (text.length : Rat) }, st.2)
        | none => st
      else st
    else st
  st

/-- The `details.truncation.truncated === true` test used by
`addToolSpanAttributes` for the `tool.truncated` attribute. -/
def detailsTruncation (details : Option JsVal) : Option Bool :=
  match details with
  | some (.obj fields) =>
    match getAssoc fields "truncation" with
    | some (.obj tfields) =>
      some (match getAssoc tfields "truncated" with
            | some (.bool true) => true
            | _ => false)
    | _ => none
  | _ => none

/-- Embedding of `addToolSpanAttributes` (tool-processing.ts lines
73-202): per-tool-kind attribute derivation with truncation. -/
def addToolSpanAttributes (span : Span) (event : ToolResultEvent) : Span :=
  let toolName := event.toolName
  let input := event.input
  let content := event.content
  let details := event.details
  let inputJson := jsonStringify input
  let attrs := setAttr span.attributes "tool.input_length" (.num (inputJson.length : Rat))
  let outputText := firstTextContent content
  let attrs :=
    match outputText with
    | some t =>
      if event.isError then
        setAttr attrs "error.message" (.str (truncate t MAX_OUTPUT_LENGTH).text)
      else attrs
    | none => attrs
  let attrs :=
    if toolName = "bash" then
      let attrs :=
        match getString input "command" with
        | some command =>
          if command ≠ "" then
            let r := truncate command MAX_COMMAND_LENGTH
            let attrs := setAttr attrs "tool.command" (.str r.text)
            let attrs := setAttr attrs "tool.command_length" (.num (r.length : Rat))
            setAttr attrs "tool.command_parsed" (.str (extractCommand command))
          else attrs
        | none => attrs
      let attrs :=
        match getNumber input "timeout" with
        | some timeout => setAttr attrs "tool.timeout" (.num timeout)
        | none => attrs
      let attrs :=
        match detailsTruncation details with
        | some b => setAttr attrs "tool.truncated" (.bool b)
        | none => attrs
      let attrs :=
        match details with
        | some d =>
          if isRecord d then
            match getString d "fullOutputPath" with
            | some p => if p ≠ "" then setAttr attrs "tool.full_output_path" (.str p) else attrs
            | none => attrs
          else attrs
        | none => attrs
      match outputText with
      | some t =>
        let r := truncate t MAX_OUTPUT_LENGTH
        let attrs := setAttr attrs "tool.output" (.str r.text)
        setAttr attrs "tool.output_length" (.num (r.length : Rat))
      | none => attrs
    else if toolName = "read" then
      let attrs :=
        match getString input "path" with
        | some p => setAttr attrs "tool.path" (.str p)
        | none => attrs
      let attrs :=
        match getNumber input "offset" with
        | some v => setAttr attrs "tool.offset" (.num v)
        | none => attrs
      let attrs :=
        match getNumber input "limit" with
        | some v => setAttr attrs "tool.limit" (.num v)
        | none => attrs
      let attrs :=
        match detailsTruncation details with
        | some b => setAttr attrs "tool.truncated" (.bool b)
        | none => attrs
      if content.length > 0 then
        let attrs := setAttr attrs "tool.is_image" (.bool (hasImageContent content))
        match outputText with
        | some t =>
          let r := truncate t MAX_OUTPUT_LENGTH
          let attrs := setAttr attrs "tool.result" (.str r.text)
          let attrs := setAttr attrs "tool.result_length" (.num (r.length : Rat))
          setAttr attrs "tool.output_length" (.num (r.length : Rat))
        | none => attrs
      else attrs
    else if toolName = "edit" then
      let attrs :=
        match getString input "path" with
        | some p => setAttr attrs "tool.path" (.str p)
        | none => attrs
      let attrs :=
        match getString input "oldText" with
        | some t => setAttr attrs "tool.old_text_length" (.num (t.length : Rat))
        | none => attrs
      let attrs :=
        match getString input "newText" with
        | some t => setAttr attrs "tool.new_text_length" (.num (t.length : Rat))
        | none => attrs
      match details with
      | some d =>
        if isRecord d then
          let diff := getString d "diff"
          let attrs := setAttr attrs "tool.has_diff" (.bool (diff.isSome && diff != some ""))
          let attrs :=
            match diff with
            | some df => if df ≠ "" then setAttr attrs "tool.diff_length" (.num (df.length : Rat)) else attrs
            | none => attrs
          match getNumber d "firstChangedLine" with
          | some v => setAttr attrs "tool.first_changed_line" (.num v)
          | none => attrs
        else attrs
      | none => attrs
    else if toolName = "write" then
      let attrs :=
        match getString input "path" with
        | some p => setAttr attrs "tool.path" (.str p)
        | none => attrs
      match getString input "content" with
      | some c =>
        let attrs := setAttr attrs "tool.content_length" (.num (c.length : Rat))
        setAttr attrs "tool.lines_written" (.num (((c.data.splitOn '\n').length : Nat) : Rat))
      | none => attrs
    else
      let attrs := setAttr attrs "tool.input" (.str (truncate inputJson MAX_COMMAND_LENGTH).text)
      if content.length > 0 then
        let attrs := setAttr attrs "tool.has_images" (.bool (hasImageContent content))
        match outputText with
        | some t =>
          let r := truncate t MAX_OUTPUT_LENGTH
          let attrs := setAttr attrs "tool.result" (.str r.text)
          let attrs := setAttr attrs "tool.result_length" (.num (r.length : Rat))
          let attrs := setAttr attrs "tool.output_length" (.num (r.length : Rat))
          setAttr attrs "tool.truncated" (.bool r.truncated)
        | none => attrs
      else attrs
  let attrs :=
    match outputText with
    | some t =>
      if getAttr attrs "tool.output_length" = none then
        setAttr attrs "tool.output_length" (.num (t.length : Rat))
      else attrs
    | none => attrs
  { span with attributes := attrs }

/-! ## Host context and lifecycle events (index.ts) -/

/-- The `VERSION` constant imported from the host package; its value is
irrelevant to every claim. -/
def VERSION : String := "dev"

/-- Git metadata returned by `getGitInfoCached` (a filesystem lookup,
modelled as data supplied with the context). -/
structure GitInfo where
  branch : Option String
  commit : Option String
  commitShort : Option String
  worktree : Option String
  commonDir : Option String
  remoteUrl : Option String
  repoName : Option String
  userName : Option String
  userEmail : Option String

/-- Model cost schedule (`ctx.model.cost`). -/
structure ModelCost where
  input : Option Rat
  output : Option Rat

/-- The model descriptor fields read by the extension. -/
structure ModelInfo where
  provider : String
  id : String
  name : Option String
  reasoning : Option Bool
  contextWindow : Option Rat
  maxTokens : Option Rat
  input : Option (List String)
  cost : Option ModelCost

/-- Session header metadata (`ctx.sessionManager.getHeader()`). -/
structure SessionHeader where
  id : Option String
  parentSession : Option String

/-- Context-window usage (`ctx.getContextUsage()`). -/
structure ContextUsage where
  tokens : Rat
  percent : Rat
  contextWindow : Rat
  usageTokens : Rat
  trailingTokens : Rat
  lastUsageIndex : Option Rat

/-- The slice of the host `ExtensionContext` / `ExtensionAPI` and
process environment read by the handlers. `parentSessionId` carries the
result of `getSessionIdFromPath(header?.parentSession)` (a filesystem
lookup abstracted as supplied data). -/
structure Ctx where
  cwd : String
  hasUI : Bool
  model : Option ModelInfo
  header : Option SessionHeader
  sessionName : Option String
  parentSessionId : Option String
  git : GitInfo
  gitCacheHit : Bool
  usingOAuth : Bool
  contextUsage : Option ContextUsage
  activeTools : List String
  thinkingLevel : String
  osPlatform : String
  osArch : String
  bunVersion : Option String
  nodeVersion : String

/-- Captured user input (the `input` event payload). -/
structure CapturedInput where
  text : String
  images : Option (List JsVal)
  source : String

/-- Assistant/user message as read by `turn_end` / `agent_end`:
role, optional `stopReason`, optional `usage` payload, optional
content parts. -/
structure Msg where
  role : String
  stopReason : Option String
  usage : Option JsVal
  content : Option (List ContentPart)

/-- The lifecycle events handled by the extension, with the payload
fields the handlers read. `sessionFork`'s `prevSessionId` carries the
result of `getSessionIdFromPath(event.previousSessionFile)`;
`turnEnd`'s `toolResults` is the length of `event.toolResults`. -/
inductive Event where
  | sessionStart (ctx : Ctx)
  | sessionSwitch (reason : String) (ctx : Ctx)
  | sessionFork (prevSessionId : Option String) (ctx : Ctx)
  | sessionTree (oldLeafId : Option String) (newLeafId : Option String)
      (summaryEntry : Option (String × String)) (fromExtension : Option Bool) (ctx : Ctx)
  | input (text : String) (images : Option (List JsVal)) (source : String)
  | beforeAgentStart (systemPrompt : String)
  | agentStart (ctx : Ctx)
  | agentEnd (messages : Option (List Msg)) (ctx : Ctx)
  | turnStart (turnIndex : Rat) (timestamp : Rat) (ctx : Ctx)
  | turnEnd (message : Msg) (toolResults : Nat)
  | modelSelect (model : ModelInfo) (previousModel : Option ModelInfo)
  | toolCall (toolName : String) (toolCallId : String) (ctx : Ctx)
  | toolResult (event : ToolResultEvent)
  | sessionCompact (fromExtension : Bool) (ctx : Ctx)
  | sessionShutdown

/-- Open-tool-table entry (index.ts lines 87-90). The TypeScript entry
holds a mutable reference to the owning turn's rollup; since every turn
has a distinct rollup object, the reference is modelled by the owning
turn span's id (`turnSpanId`): while that turn is still open the alias
denotes its rollup, afterwards it denotes a dead object whose mutation
is unobservable. -/
structure OpenToolEntry where
  span : Span
  startTime : Rat
  turnSpanId : Nat

/-- The extension's module-level mutable state (index.ts lines 71-95)
together with the stream of spans handed to `exporter.bufferSpan`, in
order (`exported`), and the fresh-id counter standing in for the random
id generator. -/
structure ExtState where
  sessionId : Option String
  currentThreadSpan : Option Span
  currentThreadRollup : Option PromptRollup
  openTurns : List (Span × TurnRollup)
  currentModel : Option (String × String)
  lastModel : Option (String × String)
  capturedInput : Option CapturedInput
  capturedSystemPrompt : Option String
  openToolSpans : List (String × OpenToolEntry)
  exported : List Span
  nextId : Nat

def initState : ExtState :=
  { sessionId := none
    currentThreadSpan := none
    currentThreadRollup := none
    openTurns := []
    currentModel := none
    lastModel := none
    capturedInput := none
    capturedSystemPrompt := none
    openToolSpans := []
    exported := []
    nextId := 0 }

/-- Draw a fresh id (`genTraceId` / `genSpanId`). -/
def genId (st : ExtState) : Nat × ExtState :=
  (st.nextId, { st with nextId := st.nextId + 1 })

/-- Embedding of `createSpan` (index.ts lines 101-115). -/
def createSpan (st : ExtState) (now : Rat) (name : String)
    (parentSpanId : Option Nat) (traceId : Option Nat) : Span × ExtState :=
  let (tid, st) :=
    match traceId with
    | some t => (t, st)
    | none =>
      match st.currentThreadSpan with
      | some th => (th.traceId, st)
      | none => genId st
  let (sid, st) := genId st
  ({ traceId := tid
     spanId := sid
     parentSpanId := parentSpanId
     name := name
     kind := .internal
     startTimeMs := now
     endTimeMs := none
     durationMs := none
     status := .unset
     attributes := []
     links := none }, st)

/-- The closed span value produced by `endSpan` (index.ts lines
131-139): stamp end time, duration and status, plus the `error`
attribute on error. -/
def closeSpan (now : Rat) (span : Span) (status : SpanStatus) : Span :=
  let span := { span with
    endTimeMs := some now
    durationMs := some (now - span.startTimeMs)
    status := status }
  if status = .error then
    { span with attributes := setAttr span.attributes "error" (.bool true) }
  else span

/-- Embedding of `endSpan` (index.ts lines 131-139): close the span and
hand it to `exporter.bufferSpan`. -/
def endSpan (st : ExtState) (now : Rat) (span : Span) (status : SpanStatus) : ExtState :=
  { st with exported := st.exported ++ [closeSpan now span status] }

/-- Embedding of `formatToolSpanName` (index.ts lines 141-146). -/
def formatToolSpanName (toolName : String) : String :=
  match toolName.data with
  | [] => "Tool"
  | c :: rest => String.mk (c.toUpper :: rest)

/-- Embedding of `createSessionEventSpan` (index.ts lines 117-129). -/
def createSessionEventSpan (st : ExtState) (now : Rat) (name : String) (ctx : Ctx) :
    Span × ExtState :=
  let (tid, st) := genId st
  let (span, st) := createSpan st now name none (some tid)
  let attrs := setAttrs span.attributes
    ([("session.id", .str ((ctx.header.bind (fun h => h.id)).getD "")),
      ("session.name", .str (ctx.sessionName.getD ""))] ++
     (match ctx.parentSessionId with
      | some p => [("session.parent_id", AttrValue.str p)]
      | none => []) ++
     [("cwd", .str ctx.cwd),
      ("service.name", .str "pi-coding-agent")])
  ({ span with attributes := attrs }, st)

/-- Attribute emitted only when the optional string is present and
non-empty (the `if (x !== undefined && x !== "")` pattern of
`startThread`). -/
def optStrAttr (k : String) (v : Option String) : AttrMap :=
  match v with
  | some s => if s ≠ "" then [(k, .str s)] else []
  | none => []

/-- `ctx.model.input?.includes("image") ?? false`. -/
def supportsImages (m : ModelInfo) : Bool :=
  match m.input with
  | some l => decide ("image" ∈ l)
  | none => false

/-- The model attribute block shared by `startThread` (index.ts lines
223-243) and `agent_start` (index.ts lines 401-423), including
`model.using_oauth`. -/
def modelAttrsFull (m : ModelInfo) (usingOAuth : Bool) : AttrMap :=
  [("model.provider", .str m.provider),
   ("model.id", .str m.id),
   ("model.name", .str (m.name.getD m.id)),
   ("model.reasoning", .bool (m.reasoning.getD false)),
   ("model.context_window", .num (m.contextWindow.getD 0)),
   ("model.max_tokens", .num (m.maxTokens.getD 0)),
   ("model.using_oauth", .bool usingOAuth),
   ("model.supports_images", .bool (supportsImages m))] ++
  (match m.cost with
   | some c =>
     [("model.cost.input", AttrValue.num (c.input.getD 0)),
      ("model.cost.output", AttrValue.num (c.output.getD 0))]
   | none => [])

/-- The model attribute block of `model_select` (index.ts lines
627-641), which does not set `model.using_oauth`. -/
def modelAttrsSelect (m : ModelInfo) : AttrMap :=
  [("model.provider", .str m.provider),
   ("model.id", .str m.id),
   ("model.name", .str (m.name.getD m.id)),
   ("model.reasoning", .bool (m.reasoning.getD false)),
   ("model.context_window", .num (m.contextWindow.getD 0)),
   ("model.max_tokens", .num (m.maxTokens.getD 0)),
   ("model.supports_images", .bool (supportsImages m))] ++
  (match m.cost with
   | some c =>
     [("model.cost.input", AttrValue.num (c.input.getD 0)),
      ("model.cost.output", AttrValue.num (c.output.getD 0))]
   | none => [])

/-- Cross-trace link data passed to `startThread`. -/
structure ThreadLinkInfo where
  traceId : Nat
  spanId : Nat
  relation : String

/-- Embedding of `startThread` (index.ts lines 152-244). -/
def startThread (st : ExtState) (now : Rat) (ctx : Ctx) (link : Option ThreadLinkInfo) :
    ExtState :=
  let (traceId, st) := genId st
  let (span, st) := createSpan st now "Thread" none (some traceId)
  let span :=
    match link with
    | some l =>
      let lk : SpanLink :=
        { traceId := l.traceId
          spanId := l.spanId
          attributes := [("link.relation", AttrValue.str l.relation)] }
      { span with links := some [lk] }
    | none => span
  let sessionId := ctx.header.bind (fun h => h.id)
  let attrs :=
    [("main", AttrValue.bool true),
     ("session.id", AttrValue.str (sessionId.getD "")),
     ("session.name", AttrValue.str (ctx.sessionName.getD ""))] ++
    (match ctx.parentSessionId with
     | some p => [("session.parent_id", AttrValue.str p)]
     | none => []) ++
    [("service.name", AttrValue.str "pi-coding-agent"),
     ("pi.version", AttrValue.str VERSION),
     ("cwd", AttrValue.str ctx.cwd),
     ("has_ui", AttrValue.bool ctx.hasUI),
     ("os.platform", AttrValue.str ctx.osPlatform),
     ("os.arch", AttrValue.str ctx.osArch),
     ("runtime.name", AttrValue.str (match ctx.bunVersion with
       | some _ => "bun"
       | none => "node")),
     ("runtime.version", AttrValue.str (ctx.bunVersion.getD ctx.nodeVersion)),
     ("git.cache_hit", AttrValue.bool ctx.gitCacheHit)] ++
    optStrAttr "git.branch" ctx.git.branch ++
    optStrAttr "git.commit" ctx.git.commit ++
    optStrAttr "git.commit_short" ctx.git.commitShort ++
    optStrAttr "git.worktree" ctx.git.worktree ++
    optStrAttr "git.common_dir" ctx.git.commonDir ++
    optStrAttr "git.remote_url" ctx.git.remoteUrl ++
    optStrAttr "git.repo_name" ctx.git.repoName ++
    optStrAttr "git.user.name" ctx.git.userName ++
    optStrAttr "git.user.email" ctx.git.userEmail ++
    (match ctx.model with
     | some m => modelAttrsFull m ctx.usingOAuth
     | none => [])
  let span := { span with attributes := setAttrs span.attributes attrs }
  let rollup := createPromptRollup
  let rollup :=
    match ctx.model with
    | some m => { rollup with models := addSet rollup.models (modelKey m.provider m.id) }
    | none => rollup
  let cm := ctx.model.map (fun m => (m.provider, m.id))
  { st with
    currentThreadSpan := some span
    currentThreadRollup := some rollup
    currentModel := cm
    lastModel := cm
    openTurns := []
    sessionId := sessionId }

/-- Embedding of `endThread` (index.ts lines 246-282). Returns the
closed thread span's `(traceId, spanId)` when a thread was open. -/
def endThread (st : ExtState) (now : Rat) (status : SpanStatus) :
    Option (Nat × Nat) × ExtState :=
  match st.currentThreadSpan, st.currentThreadRollup with
  | some span, some rollup =>
    let st := st.openTurns.foldl
      (fun acc tr => endSpan acc now (applyTurnRollupToSpan tr.1 tr.2) .error) st
    let st := { st with openTurns := [] }
    let st := st.openToolSpans.foldl
      (fun acc e => endSpan acc now e.2.span .error) st
    let st := { st with openToolSpans := [] }
    let span := applyPromptRollupToSpan span rollup
    let span := { span with attributes := setAttr span.attributes "status" (.str (statusString status)) }
    let st := endSpan st now span status
    (some (span.traceId, span.spanId),
     { st with
       currentThreadSpan := none
       currentThreadRollup := none
       currentModel := none
       lastModel := none
       capturedInput := none
       capturedSystemPrompt := none })
  | _, _ =>
    (none,
     { st with
       currentModel := none
       lastModel := none
       openTurns := []
       openToolSpans := []
       capturedInput := none
       capturedSystemPrompt := none })

/-! ## Event handlers (index.ts lines 293-745) -/

/-- Handler for `session_start` (index.ts lines 298-303);
`applyProjectConfig` only affects the configuration layer, which the
controller state does not carry. -/
def onSessionStart (st : ExtState) (now : Rat) (ctx : Ctx) : ExtState :=
  startThread st now ctx none

/-- Handler for `session_switch` (index.ts lines 305-312): a link is
recorded only for the `resume` reason. -/
def onSessionSwitch (st : ExtState) (now : Rat) (reason : String) (ctx : Ctx) : ExtState :=
  let (prev, st) := endThread st now .ok
  let link :=
    if reason = "resume" then
      prev.map (fun p => ({ traceId := p.1, spanId := p.2, relation := "resume" } : ThreadLinkInfo))
    else none
  startThread st now ctx link

/-- Handler for `session_fork` (index.ts lines 314-325). -/
def onSessionFork (st : ExtState) (now : Rat) (prevSessionId : Option String) (ctx : Ctx) :
    ExtState :=
  let (prev, st) := endThread st now .ok
  let link :=
    prev.map (fun p => ({ traceId := p.1, spanId := p.2, relation := "fork" } : ThreadLinkInfo))
  let st := startThread st now ctx link
  let (span, st) := createSessionEventSpan st now "session.fork" ctx
  let span :=
    match prevSessionId with
    | some p => { span with attributes := setAttr span.attributes "session.previous_id" (.str p) }
    | none => span
  endSpan st now span .ok

/-- Handler for `session_tree` (index.ts lines 327-363). -/
def onSessionTree (st : ExtState) (now : Rat) (oldLeafId : Option String)
    (newLeafId : Option String) (summaryEntry : Option (String × String))
    (fromExtension : Option Bool) (ctx : Ctx) : ExtState :=
  let (prev, st) := endThread st now .ok
  let link :=
    prev.map (fun p => ({ traceId := p.1, spanId := p.2, relation := "tree" } : ThreadLinkInfo))
  let st := startThread st now ctx link
  let st :=
    match st.currentThreadSpan with
    | some tspan =>
      let attrs :=
        (match oldLeafId with
         | some v => [("thread.branch.old_leaf_id", AttrValue.str v)]
         | none => []) ++
        (match newLeafId with
         | some v => [("thread.branch.new_leaf_id", AttrValue.str v)]
         | none => []) ++
        (match summaryEntry with
         | some se =>
           [("thread.branch.summary_entry_id", AttrValue.str se.1),
            ("thread.branch.summary_from_id", AttrValue.str se.2)]
         | none => []) ++
        (match fromExtension with
         | some v => [("thread.branch.from_extension", AttrValue.bool v)]
         | none => [])
      { st with currentThreadSpan := some { tspan with attributes := setAttrs tspan.attributes attrs } }
    | none => st
  let (span, st) := createSessionEventSpan st now "session.tree" ctx
  let attrs :=
    (match oldLeafId with
     | some v => [("session.tree.old_leaf_id", AttrValue.str v)]
     | none => []) ++
    (match newLeafId with
     | some v => [("session.tree.new_leaf_id", AttrValue.str v)]
     | none => []) ++
    (match summaryEntry with
     | some se =>
       [("session.tree.summary_entry_id", AttrValue.str se.1),
        ("session.tree.summary_from_id", AttrValue.str se.2)]
     | none => []) ++
    (match fromExtension with
     | some v => [("session.tree.from_extension", AttrValue.bool v)]
     | none => [])
  endSpan st now { span with attributes := setAttrs span.attributes attrs } .ok

/-- Handler for `input` (index.ts lines 365-371). -/
def onInput (st : ExtState) (text : String) (images : Option (List JsVal)) (source : String) :
    ExtState :=
  { st with capturedInput := some { text := text, images := images, source := source } }

/-- Handler for `before_agent_start` (index.ts lines 373-381). -/
def onBeforeAgentStart (st : ExtState) (systemPrompt : String) : ExtState :=
  let st := { st with capturedSystemPrompt := some systemPrompt }
  match st.currentThreadSpan with
  | some tspan =>
    if getAttr tspan.attributes "system_prompt" = none then
      let r := truncate systemPrompt MAX_TEXT_LENGTH
      let kvs : AttrMap :=
        [("system_prompt", .str r.text),
         ("system_prompt_length", .num (r.length : Rat))]
      { st with
        currentThreadSpan := some { tspan with attributes := setAttrs tspan.attributes kvs }
        capturedSystemPrompt := none }
    else st
  | none => st

/-- Handler for `agent_start` (index.ts lines 383-447). -/
def onAgentStart (st : ExtState) (now : Rat) (ctx : Ctx) : ExtState :=
  let st :=
    if st.currentThreadSpan.isNone || st.currentThreadRollup.isNone then
      startThread st now ctx none
    else st
  match st.currentThreadSpan, st.currentThreadRollup with
  | some tspan, some rollup =>
    let (tspan, st) :=
      match st.capturedSystemPrompt with
      | some sp =>
        if getAttr tspan.attributes "system_prompt" = none then
          let r := truncate sp MAX_TEXT_LENGTH
          let kvs : AttrMap :=
            [("system_prompt", .str r.text),
             ("system_prompt_length", .num (r.length : Rat))]
          ({ tspan with attributes := setAttrs tspan.attributes kvs },
           { st with capturedSystemPrompt := none })
        else (tspan, st)
      | none => (tspan, st)
    let (tspan, rollup, st) :=
      match ctx.model with
      | some m =>
        if getAttr tspan.attributes "model.provider" = none then
          let cm := some (m.provider, m.id)
          (({ tspan with attributes := setAttrs tspan.attributes (modelAttrsFull m ctx.usingOAuth) } : Span),
           ({ rollup with models := addSet rollup.models (modelKey m.provider m.id) } : PromptRollup),
           { st with currentModel := cm, lastModel := cm })
        else (tspan, rollup, st)
      | none => (tspan, rollup, st)
    let st :=
      match st.capturedInput with
      | some ci =>
        let (inputSpan, st) := createSpan st now "Input" (some tspan.spanId) (some tspan.traceId)
        let r := truncate ci.text MAX_TEXT_LENGTH
        let imageCount : Nat := (ci.images.map (fun l => List.length l)).getD 0
        let kvs : AttrMap :=
          [("input.source", .str ci.source),
           ("input.text", .str r.text),
           ("input.text_length", .num (r.length : Rat)),
           ("input.has_images", .bool (decide (imageCount > 0))),
           ("input.image_count", .num (imageCount : Rat))]
        let inputSpan := { inputSpan with attributes := setAttrs inputSpan.attributes kvs }
        let st := endSpan st now inputSpan .ok
        { st with capturedInput := none }
      | none => st
    let tspan :=
      if getAttr tspan.attributes "tools.active.count" = none then
        let activeTools := ctx.activeTools.foldl addSet []
        let a1 := setAttr tspan.attributes "tools.active.count" (.num (activeTools.length : Rat))
        let a2 := setAttrs a1 (activeTools.map (fun t => ("tools.active." ++ t, AttrValue.bool true)))
        { tspan with attributes := a2 }
      else tspan
    let a3 := setAttr tspan.attributes "thinking.level" (.str ctx.thinkingLevel)
    let tspan := { tspan with attributes := a3 }
    { st with currentThreadSpan := some tspan, currentThreadRollup := some rollup }
  | _, _ => st

/-- Handler for `agent_end` (index.ts lines 449-499): folds token/cost
totals and the full thread rollup onto the still-open thread span but
does not close it; the `exporter.flush()` it triggers is an
exporter-side action. -/
def onAgentEnd (st : ExtState) (messages : Option (List Msg)) (ctx : Ctx) : ExtState :=
  match st.currentThreadSpan, st.currentThreadRollup with
  | some span, some rollup =>
    let msgs := messages.getD []
    let finalStopReason : Option String :=
      msgs.foldl (fun acc m =>
        if m.role = "assistant" ∧ m.stopReason.isSome then m.stopReason else acc) none
    let rollup :=
      msgs.foldl (fun r m =>
        if m.role = "assistant" then
          match m.usage with
          | some u =>
            { r with
              tokensInput := r.tokensInput + ((getNumber u "input").getD 0)
              tokensOutput := r.tokensOutput + ((getNumber u "output").getD 0)
              tokensCacheRead := r.tokensCacheRead + ((getNumber u "cacheRead").getD 0)
              tokensCacheWrite := r.tokensCacheWrite + ((getNumber u "cacheWrite").getD 0)
              costTotal := r.costTotal + ((getNestedNumber u "cost" "total").getD 0) }
          | none => r
        else r) rollup
    let span :=
      match ctx.contextUsage with
      | some cu =>
        let kvs : AttrMap :=
          [("context.tokens", .num cu.tokens),
           ("context.percent", .num cu.percent),
           ("context.window", .num cu.contextWindow),
           ("context.usage_tokens", .num cu.usageTokens),
           ("context.trailing_tokens", .num cu.trailingTokens)]
        let span := { span with attributes := setAttrs span.attributes kvs }
        match cu.lastUsageIndex with
        | some i =>
          { span with attributes := setAttr span.attributes "context.last_usage_index" (.num i) }
        | none => span
      | none => span
    let aborted : Bool := decide (finalStopReason = some "aborted")
    let kvs2 : AttrMap :=
      [("final_stop_reason", .str (finalStopReason.getD "unknown")),
       ("aborted", .bool aborted)]
    let span := { span with attributes := setAttrs span.attributes kvs2 }
    let span := applyPromptRollupToSpan span rollup
    let status : SpanStatus := if aborted then .error else .ok
    let span := { span with attributes := setAttr span.attributes "status" (.str (statusString status)) }
    { st with
      currentThreadSpan := some span
      currentThreadRollup := some rollup
      capturedInput := none
      capturedSystemPrompt := none }
  | _, _ => st

/-- Handler for `turn_start` (index.ts lines 501-536). -/
def onTurnStart (st : ExtState) (now : Rat) (turnIndex : Rat) (timestamp : Rat) (ctx : Ctx) :
    ExtState :=
  match st.currentThreadSpan, st.currentThreadRollup with
  | some tspan, some rollup =>
    let (rollup, st) :=
      match ctx.model with
      | some m =>
        let newModel := (m.provider, m.id)
        let rollup :=
          match st.lastModel with
          | some lm =>
            if lm.1 ≠ newModel.1 ∨ lm.2 ≠ newModel.2 then
              { rollup with modelSwitchCount := rollup.modelSwitchCount + 1 }
            else rollup
          | none => rollup
        let rollup := { rollup with models := addSet rollup.models (modelKey newModel.1 newModel.2) }
        (rollup, { st with currentModel := some newModel, lastModel := some newModel })
      | none => (rollup, st)
    let (turnSpan, st) := createSpan st now "Turn" (some tspan.spanId) (some tspan.traceId)
    let attrs :=
      [("turn.index", AttrValue.num turnIndex),
       ("turn.timestamp", AttrValue.num timestamp),
       ("cwd", AttrValue.str ctx.cwd)] ++
      (match st.currentModel with
       | some cm => [("model.provider", AttrValue.str cm.1), ("model.id", AttrValue.str cm.2)]
       | none => []) ++
      [("thinking.level", AttrValue.str ctx.thinkingLevel)]
    let turnSpan := { turnSpan with attributes := setAttrs turnSpan.attributes attrs }
    let rollup := { rollup with turnCount := rollup.turnCount + 1 }
    { st with
      openTurns := st.openTurns ++ [(turnSpan, createTurnRollup)]
      currentThreadRollup := some rollup }
  | _, _ => st

/-- Handler for `turn_end` (index.ts lines 538-607): pops the
most-recently-opened turn, folds the message and the turn rollup onto
it and closes it with status `ok`. -/
def onTurnEnd (st : ExtState) (now : Rat) (message : Msg) (toolResults : Nat) : ExtState :=
  if st.openTurns.isEmpty then st
  else
    match st.currentThreadRollup with
    | none => st
    | some rollup =>
      match st.openTurns.getLast? with
      | none => st
      | some (span, turnRollup) =>
        let openTurns := st.openTurns.dropLast
        let span :=
          if message.role = "assistant" then
            match message.usage with
            | some u =>
              let kvs : AttrMap :=
                [("tokens.input", .num ((getNumber u "input").getD 0)),
                 ("tokens.output", .num ((getNumber u "output").getD 0)),
                 ("tokens.cache_read", .num ((getNumber u "cacheRead").getD 0)),
                 ("tokens.cache_write", .num ((getNumber u "cacheWrite").getD 0)),
                 ("cost.total", .num ((getNestedNumber u "cost" "total").getD 0))]
              { span with attributes := setAttrs span.attributes kvs }
            | none => span
          else span
        let (span, rollup) :=
          if message.role = "assistant" then
            match message.stopReason with
            | some sr =>
              ({ span with attributes := setAttr span.attributes "stop_reason" (.str sr) },
               { rollup with stopReasons := addSet rollup.stopReasons sr })
            | none => (span, rollup)
          else (span, rollup)
        let (span, rollup) :=
          if message.role = "assistant" then
            match message.content with
            | some content =>
              let textParts := content.filterMap (fun c =>
                match c with
                | .text s => some s
                | _ => none)
              let span :=
                if textParts.length > 0 then
                  let r := truncate (String.join textParts) MAX_TEXT_LENGTH
                  let kvs : AttrMap :=
                    [("response.text", .str r.text),
                     ("response.text_length", .num (r.length : Rat))]
                  { span with attributes := setAttrs span.attributes kvs }
                else span
              let thinkingParts := content.filterMap (fun c =>
                match c with
                | .thinking s => some s
                | _ => none)
              if thinkingParts.length > 0 then
                let r := truncate (String.join thinkingParts) MAX_TEXT_LENGTH
                let kvs : AttrMap :=
                  [("thinking.present", .bool true),
                   ("thinking.block_count", .num (thinkingParts.length : Rat)),
                   ("thinking.text", .str r.text),
                   ("thinking.text_length", .num (r.length : Rat))]
                (({ span with attributes := setAttrs span.attributes kvs } : Span),
                 ({ rollup with
                    thinkingTurnsWithThinking := rollup.thinkingTurnsWithThinking + 1
                    thinkingBlockCount := rollup.thinkingBlockCount + (thinkingParts.length : Rat)
                    thinkingTotalLength := rollup.thinkingTotalLength + (r.length : Rat) } : PromptRollup))
              else (span, rollup)
            | none => (span, rollup)
          else (span, rollup)
        let a4 := setAttr span.attributes "tool_results.count" (.num (toolResults : Rat))
        let span := { span with attributes := a4 }
        let span := applyTurnRollupToSpan span turnRollup
        let duration := now - span.startTimeMs
        let rollup := { rollup with turnDurations := rollup.turnDurations ++ [duration] }
        let st := { st with openTurns := openTurns, currentThreadRollup := some rollup }
        endSpan st now span .ok

/-- Handler for `model_select` (index.ts lines 609-642). -/
def onModelSelect (st : ExtState) (model : ModelInfo) (previousModel : Option ModelInfo) :
    ExtState :=
  match st.currentThreadRollup with
  | none => st
  | some rollup =>
    let newKey := modelKey model.provider model.id
    let rollup := { rollup with models := addSet rollup.models newKey }
    let rollup :=
      match previousModel with
      | some pm =>
        if modelKey pm.provider pm.id ≠ newKey then
          { rollup with modelSwitchCount := rollup.modelSwitchCount + 1 }
        else rollup
      | none => rollup
    let cm := some (model.provider, model.id)
    let st := { st with currentThreadRollup := some rollup, currentModel := cm, lastModel := cm }
    match st.currentThreadSpan with
    | some tspan =>
      let tspan := { tspan with attributes := setAttrs tspan.attributes (modelAttrsSelect model) }
      { st with currentThreadSpan := some tspan }
    | none => st

/-- Handler for `tool_call` (index.ts lines 644-680): with no open turn
the event is dropped entirely; otherwise a tool span is opened under
the innermost open turn, registered by call id, and both the thread and
the turn tool counters are incremented immediately. -/
def onToolCall (st : ExtState) (now : Rat) (toolName : String) (toolCallId : String) (ctx : Ctx) :
    ExtState :=
  match st.openTurns.getLast? with
  | none => st
  | some (turnSpan, turnRollup) =>
    let (toolSpan, st) :=
      createSpan st now (formatToolSpanName toolName) (some turnSpan.spanId) (some turnSpan.traceId)
    let attrs :=
      [("tool.name", AttrValue.str toolName),
       ("tool.call_id", AttrValue.str toolCallId),
       ("cwd", AttrValue.str ctx.cwd)] ++
      (match st.currentModel with
       | some cm =>
         [("tool.model.provider", AttrValue.str cm.1), ("tool.model.id", AttrValue.str cm.2)]
       | none => []) ++
      [("thinking.level", AttrValue.str ctx.thinkingLevel)]
    let toolSpan := { toolSpan with attributes := setAttrs toolSpan.attributes attrs }
    let entry : OpenToolEntry := { span := toolSpan, startTime := now, turnSpanId := turnSpan.spanId }
    let st := { st with openToolSpans := setAssoc st.openToolSpans toolCallId entry }
    let st :=
      match st.currentThreadRollup with
      | some r =>
        let r := { r with toolCount := r.toolCount + 1, toolCounts := incrementMap r.toolCounts toolName }
        { st with currentThreadRollup := some r }
      | none => st
    let turnRollup := { turnRollup with
      toolCount := turnRollup.toolCount + 1
      toolCounts := incrementMap turnRollup.toolCounts toolName }
    { st with openTurns := st.openTurns.dropLast ++ [(turnSpan, turnRollup)] }

/-- Handler for `tool_result` (index.ts lines 682-711): events whose
call id has no open entry are ignored; otherwise the entry is removed,
attributes are derived, rollups updated and the span closed. -/
def onToolResult (st : ExtState) (now : Rat) (event : ToolResultEvent) : ExtState :=
  match getAssoc st.openToolSpans event.toolCallId with
  | none => st
  | some entry =>
    let st := { st with openToolSpans := eraseAssoc st.openToolSpans event.toolCallId }
    let duration := now - entry.startTime
    let a5 := setAttr entry.span.attributes "tool.duration_ms" (.num duration)
    let span := { entry.span with attributes := a5 }
    let span := addToolSpanAttributes span event
    let isError := event.isError
    let liveIdx := st.openTurns.findIdx? (fun tr => tr.1.spanId = entry.turnSpanId)
    let liveTurn : Option TurnRollup :=
      liveIdx.bind (fun i => (st.openTurns.get? i).map (fun tr => tr.2))
    let result :=
      match st.currentThreadRollup with
      | some r =>
        let r :=
          if isError then
            { r with
              toolErrorCount := r.toolErrorCount + 1
              toolErrors := incrementMap r.toolErrors event.toolName }
          else r
        let r := { r with
          toolTotalDurationMs := r.toolTotalDurationMs + duration
          toolDurations := incrementMapBy r.toolDurations event.toolName duration }
        let rt := processToolResult event r liveTurn
        (some rt.1, rt.2)
      | none => (none, liveTurn)
    let threadRollup := result.1
    let liveTurn := result.2
    let liveTurn :=
      if isError then liveTurn.map (fun t => { t with toolErrorCount := t.toolErrorCount + 1 })
      else liveTurn
    let openTurns :=
      match liveIdx, liveTurn with
      | some i, some t =>
        match st.openTurns.get? i with
        | some tr => st.openTurns.set i (tr.1, t)
        | none => st.openTurns
      | _, _ => st.openTurns
    let st := { st with openTurns := openTurns, currentThreadRollup := threadRollup }
    endSpan st now span (if isError then .error else .ok)

/-- Handler for `session_compact` (index.ts lines 713-724). -/
def onSessionCompact (st : ExtState) (fromExtension : Bool) (ctx : Ctx) : ExtState :=
  match st.currentThreadRollup with
  | none => st
  | some rollup =>
    let rollup := { rollup with
      compactionOccurred := true
      compactionFromExtension := fromExtension }
    let rollup :=
      match ctx.contextUsage with
      | some cu => { rollup with compactionTokensBefore := cu.tokens }
      | none => rollup
    { st with currentThreadRollup := some rollup }

/-- Handler for `session_shutdown` (index.ts lines 726-737): mark the
thread span aborted, force-close everything with status `error`;
`resetProjectConfig` and `flushSync` act on the configuration layer and
the exporter queue respectively. -/
def onSessionShutdown (st : ExtState) (now : Rat) : ExtState :=
  let st :=
    match st.currentThreadSpan with
    | some tspan =>
      let kvs : AttrMap := [("status", .str "error"), ("aborted", .bool true)]
      let tspan := { tspan with attributes := setAttrs tspan.attributes kvs }
      { st with currentThreadSpan := some tspan }
    | none => st
  (endThread st now .error).2

/-- One synchronous lifecycle transition: the event dispatch of
`opentelemetryExtension` (index.ts lines 293-745) for an enabled
configuration, with `now` the value `nowMs()` returns during the
handler. -/
def step (st : ExtState) (now : Rat) (e : Event) : ExtState :=
  match e with
  | .sessionStart ctx => onSessionStart st now ctx
  | .sessionSwitch reason ctx => onSessionSwitch st now reason ctx
  | .sessionFork prevSessionId ctx => onSessionFork st now prevSessionId ctx
  | .sessionTree o n se fe ctx => onSessionTree st now o n se fe ctx
  | .input text images source => onInput st text images source
  | .beforeAgentStart sp => onBeforeAgentStart st sp
  | .agentStart ctx => onAgentStart st now ctx
  | .agentEnd messages ctx => onAgentEnd st messages ctx
  | .turnStart ti ts ctx => onTurnStart st now ti ts ctx
  | .turnEnd message toolResults => onTurnEnd st now message toolResults
  | .modelSelect model prev => onModelSelect st model prev
  | .toolCall toolName toolCallId ctx => onToolCall st now toolName toolCallId ctx
  | .toolResult ev => onToolResult st now ev
  | .sessionCompact fe ctx => onSessionCompact st fe ctx
  | .sessionShutdown => onSessionShutdown st now

/-! ## OTLP serialization and the batched exporter (exporter.ts) -/

/-- OTLP attribute value: exactly one of the four typed fields of the
`value` record is set. -/
inductive OTLPValue where
  | stringValue (s : String)
  | intValue (s : String)
  | doubleValue (q : Rat)
  | boolValue (b : Bool)
deriving Repr, DecidableEq

structure OTLPAttr where
  key : String
  value : OTLPValue
deriving Repr, DecidableEq

structure OTLPLink where
  traceId : Nat
  spanId : Nat
  attributes : List OTLPAttr
deriving Repr, DecidableEq

structure OTLPStatus where
  code : Nat
deriving Repr, DecidableEq

/-- Embedding of `OTLPSpan` (types.ts lines 14-27) plus the `links`
field assigned by `spanToOTLP`. -/
structure OTLPSpan where
  traceId : Nat
  spanId : Nat
  parentSpanId : Option Nat
  name : String
  kind : Nat
  startTimeUnixNano : String
  endTimeUnixNano : String
  status : OTLPStatus
  attributes : List OTLPAttr
  links : Option (List OTLPLink)
deriving Repr, DecidableEq

/-- The `kindMap` of `spanToOTLP` (exporter.ts line 169). -/
def kindMap : SpanKind → Nat
  | .internal => 1
  | .server => 2
  | .client => 3

/-- The `statusMap` of `spanToOTLP` (exporter.ts line 170). -/
def statusMap : SpanStatus → Nat
  | .unset => 0
  | .ok => 1
  | .error => 2

/-- The per-value branch of `toAttributes` (exporter.ts lines 178-188):
dispatch on the runtime type of the stored value, with
`Number.isInteger` separating `intValue` (rendered as a decimal
string) from `doubleValue`. -/
def toOTLPValue : AttrValue → OTLPValue
  | .str s => .stringValue s
  | .bool b => .boolValue b
  | .num q => if q.den = 1 then .intValue (toString q.num) else .doubleValue q

/-- `toAttributes` (exporter.ts lines 172-188). -/
def toAttributes (attrs : AttrMap) : List OTLPAttr :=
  attrs.map (fun kv => { key := kv.1, value := toOTLPValue kv.2 })

/-- Embedding of `spanToOTLP` (exporter.ts lines 168-230). Timestamps
are `String(ms * 1_000_000)`. -/
def spanToOTLP (span : Span) : OTLPSpan :=
  { traceId := span.traceId
    spanId := span.spanId
    parentSpanId := span.parentSpanId
    name := span.name
    kind := kindMap span.kind
    startTimeUnixNano := jsNumToString (span.startTimeMs * 1000000)
    endTimeUnixNano := jsNumToString ((span.endTimeMs.getD span.startTimeMs) * 1000000)
    status := { code := statusMap span.status }
    attributes := toAttributes span.attributes
    links :=
      match span.links with
      | some ls =>
        if ls.length > 0 then
          some (ls.map (fun l =>
            { traceId := l.traceId, spanId := l.spanId, attributes := toAttributes l.attributes }))
        else none
      | none => none }

/-- Export destination (the `TelemetryConfig.destination` union used by
`exportBatch`; the configuration resolver itself lives in config.ts,
outside the embedded sources). -/
inductive Destination where
  | disabled
  | file (dir : String)
  | http (url : String) (headers : List (String × String)) (timeout : Option Rat)
  | unix (path : String)
deriving Repr, DecidableEq

/-- The slice of `TelemetryConfig` the exporter reads on every call. -/
structure TelemetryConfig where
  destination : Destination
  batchSize : Nat
  flushIntervalMs : Rat
deriving Repr, DecidableEq

/-- State of one `createSpanExporter` instance (exporter.ts lines
20-166): the in-memory queue, the pending flush timer (carrying the
interval it was armed with), and the batches drained and handed to
delivery so far (the commitment point — a drained batch is sent,
successfully or not, and never re-queued). -/
structure ExporterState where
  spanBuffer : List OTLPSpan
  flushTimer : Option Rat
  delivered : List (List OTLPSpan)
deriving Repr, DecidableEq

/-- Embedding of `scheduleFlush` (exporter.ts lines 34-43): a pending
timer is never reset; one is armed with `flushIntervalMs` only when
none is pending. -/
def scheduleFlush (cfg : TelemetryConfig) (st : ExporterState) : ExporterState :=
  match st.flushTimer with
  | some _ => st
  | none => { st with flushTimer := some cfg.flushIntervalMs }

/-- The state transition of `flush` (exporter.ts lines 45-58): cancel
any pending timer, return early on an empty queue, otherwise atomically
drain the queue and hand the batch to delivery. -/
def flushStep (st : ExporterState) : ExporterState :=
  let st := { st with flushTimer := none }
  if st.spanBuffer.isEmpty then st
  else { st with spanBuffer := [], delivered := st.delivered ++ [st.spanBuffer] }

/-- Embedding of `bufferSpan` (exporter.ts lines 24-32): serialize and
append; flush immediately at `batchSize`, otherwise arm the timer if
none is pending. -/
def bufferSpan (cfg : TelemetryConfig) (st : ExporterState) (span : Span) : ExporterState :=
  let st := { st with spanBuffer := st.spanBuffer ++ [spanToOTLP span] }
  if st.spanBuffer.length ≥ cfg.batchSize then flushStep st
  else scheduleFlush cfg st

/-- Environment model of one delivery attempt's fate
(connection refused / timeout abort / malformed response body). -/
inductive DeliveryOutcome where
  | success
  | connectionRefused
  | timeout
  | malformedResponse
deriving Repr, DecidableEq

/-- The promise produced by `exportBatch` (exporter.ts lines 73-112)
under a given delivery outcome: a disabled destination delivers
nothing; a refused connection or a timeout abort rejects the promise; a
malformed response body resolves (the exporter never reads the
response). -/
def exportBatchResult (dest : Destination) (o : DeliveryOutcome) : Except String Unit :=
  match dest with
  | .disabled => .ok ()
  | _ =>
    match o with
    | .success => .ok ()
    | .connectionRefused => .error "ECONNREFUSED"
    | .timeout => .error "AbortError"
    | .malformedResponse => .ok ()

/-- The `.catch(() => \x7b\x7d)` attached by `flush` (exporter.ts lines
55-57): any rejection of the delivery promise is swallowed. -/
def catchSilent (e : Except String Unit) : Except String Unit :=
  match e with
  | .ok _ => .ok ()
  | .error _ => .ok ()

/-- `flush` as observed by its caller: the synchronous state transition
together with the settled result of the delivery promise (after the
attached `.catch`); an empty queue starts no delivery. -/
def flushObserved (cfg : TelemetryConfig) (st : ExporterState) (o : DeliveryOutcome) :
    ExporterState × Except String Unit :=
  (flushStep st,
   if st.spanBuffer.isEmpty then .ok ()
   else catchSilent (exportBatchResult cfg.destination o))

/-! ## Trace scenarios used by the behavioural claims -/

/-- A tool-phase event: a tool call or a tool result, with the time at
which it is processed. -/
inductive ToolEvt where
  | call (now : Rat) (toolName : String) (toolCallId : String) (ctx : Ctx)
  | result (now : Rat) (event : ToolResultEvent)

/-- Process one tool-phase event. -/
def toolEvtStep (st : ExtState) (e : ToolEvt) : ExtState :=
  match e with
  | .call now toolName toolCallId ctx => step st now (.toolCall toolName toolCallId ctx)
  | .result now ev => step st now (.toolResult ev)

def ToolEvt.isCall : ToolEvt → Bool
  | .call _ _ _ _ => true
  | .result _ _ => false

/-- The number of tool-call events in a tool phase. -/
def callCount (evts : List ToolEvt) : Nat :=
  (evts.filter ToolEvt.isCall).length

/-- One turn of a thread: a `turn_start`, an arbitrary sequence of
tool-call/tool-result events (results may be missing, duplicated or
unknown), and a `turn_end`. -/
structure TurnBlock where
  tStart : Rat
  turnIndex : Rat
  timestamp : Rat
  ctxStart : Ctx
  toolEvents : List ToolEvt
  tEnd : Rat
  endMessage : Msg
  toolResults : Nat

/-- Process one turn block. -/
def runBlock (st : ExtState) (b : TurnBlock) : ExtState :=
  let st := step st b.tStart (.turnStart b.turnIndex b.timestamp b.ctxStart)
  let st := b.toolEvents.foldl toolEvtStep st
  step st b.tEnd (.turnEnd b.endMessage b.toolResults)

/-- Process a sequence of turn blocks. -/
def runBlocks (st : ExtState) (blocks : List TurnBlock) : ExtState :=
  blocks.foldl runBlock st

/-- Total number of tool-call events across the turns of a thread. -/
def sumCalls (blocks : List TurnBlock) : Nat :=
  (blocks.map (fun b => callCount b.toolEvents)).sum

/-- Classification of the thread-begin events that first close any open
thread (`session_switch`, `session_fork`, `session_tree`), together
with the link relation they specify, if any: `resume` only for a
switch whose reason is `"resume"`, always `fork` / `tree` for the
other two. -/
def threadBeginLink : Event → Option (Option String)
  | .sessionSwitch reason _ => some (if reason = "resume" then some "resume" else none)
  | .sessionFork _ _ => some (some "fork")
  | .sessionTree _ _ _ _ _ => some (some "tree")
  | _ => none

/-- The thread span as closed by `endThread`: the prompt rollup folded
onto its attributes followed by the `status` attribute (index.ts lines
268-272). -/
def threadFoldSpan (th : Span) (r : PromptRollup) (status : SpanStatus) : Span :=
  let span := applyPromptRollupToSpan th r
  { span with attributes := setAttr span.attributes "status" (.str (statusString status)) }


/-- A fresh (unclosed, attribute-free) span value, used to build
concrete states in the witnesses. -/
def mkBlankSpan (tid sid : Nat) (parent : Option Nat) (nm : String) (t0 : Rat) : Span :=
  { traceId := tid
    spanId := sid
    parentSpanId := parent
    name := nm
    kind := .internal
    startTimeMs := t0
    endTimeMs := none
    durationMs := none
    status := .unset
    attributes := []
    links := none }

/-- Concrete witness state for the shutdown claim: an open thread, one
open turn and two open tool spans. -/
def c4WitnessState : ExtState :=
  { sessionId := some "s"
    currentThreadSpan := some (mkBlankSpan 1 2 none "Thread" 0)
    currentThreadRollup := some createPromptRollup
    openTurns := [(mkBlankSpan 1 3 (some 2) "Turn" 1, createTurnRollup)]
    currentModel := none
    lastModel := none
    capturedInput := none
    capturedSystemPrompt := none
    openToolSpans :=
      [("c1", { span := mkBlankSpan 1 4 (some 3) "Bash" 2, startTime := 2, turnSpanId := 3 }),
       ("c2", { span := mkBlankSpan 1 5 (some 3) "Read" 3, startTime := 3, turnSpanId := 3 })]
    exported := []
    nextId := 6 }


/-- A minimal concrete host context for the witnesses. -/
def testCtx : Ctx :=
  { cwd := "/w"
    hasUI := false
    model := none
    header := none
    sessionName := none
    parentSessionId := none
    git := { branch := none, commit := none, commitShort := none, worktree := none,
             commonDir := none, remoteUrl := none, repoName := none, userName := none,
             userEmail := none }
    gitCacheHit := false
    usingOAuth := false
    contextUsage := none
    activeTools := []
    thinkingLevel := "off"
    osPlatform := "linux"
    osArch := "x64"
    bunVersion := none
    nodeVersion := "v20" }


/-- The read/edit/write file-operation block of `processToolResult`
(tool-processing.ts lines 23-38). -/
def ptrFileStage (event : ToolResultEvent) (st : PromptRollup × Option TurnRollup) :
    PromptRollup × Option TurnRollup :=
  if event.toolName = "read" ∨ event.toolName = "edit" ∨ event.toolName = "write" then
    match getString event.input "path" with
    | some filePath =>
      if filePath ≠ "" then
        let r := st.1
        let r := { r with fileOperations := incrementMap r.fileOperations filePath }
        let t := st.2.map (fun t => { t with fileOperations := incrementMap t.fileOperations filePath })
        let toolFiles := (getAssoc r.filesByTool event.toolName).getD []
        let r := { r with filesByTool := setAssoc r.filesByTool event.toolName (incrementMap toolFiles filePath) }
        (r, t)
      else st
    | none => st
  else st

/-- The bash-command block of `processToolResult`
(tool-processing.ts lines 40-49). -/
def ptrBashStage (event : ToolResultEvent) (st : PromptRollup × Option TurnRollup) :
    PromptRollup × Option TurnRollup :=
  if event.toolName = "bash" then
    match getString event.input "command" with
    | some command =>
      if command ≠ "" then
        let parsed := extractCommand command
        let r := { st.1 with bashCommands := incrementMap st.1.bashCommands parsed }
        let t := st.2.map (fun t => { t with bashCommands := incrementMap t.bashCommands parsed })
        (r, t)
      else st
    | none => st
  else st

/-- The truncation-count block of `processToolResult`
(tool-processing.ts lines 51-57). -/
def ptrTruncStage (event : ToolResultEvent) (st : PromptRollup × Option TurnRollup) :
    PromptRollup × Option TurnRollup :=
  match event.details with
  | some details =>
    if isRecord details then
      match details with
      | .obj fields =>
        match getAssoc fields "truncation" with
        | some (.obj tfields) =>
          match getAssoc tfields "truncated" with
          | some (.bool true) =>
            ({ st.1 with toolTruncationCount := st.1.toolTruncationCount + 1 }, st.2)
          | _ => st
        | _ => st
      | _ => st
    else st
  | none => st

/-- The read/write byte-count block of `processToolResult`
(tool-processing.ts lines 59-70). -/
def ptrBytesStage (event : ToolResultEvent) (st : PromptRollup × Option TurnRollup) :
    PromptRollup × Option TurnRollup :=
  if event.toolName = "read" ∨ event.toolName = "write" then
    if event.content.length > 0 then
      match firstTextContent event.content with
      | some text =>
        ({ st.1 with toolBytes := incrementMapBy st.1.toolBytes event.toolName (text.length : Rat) }, st.2)
      | none => st
    else st
  else st


/-- The turn rollup produced by `processToolResult` when a live turn is
found: the second component of its result, which is always present. -/
def ptrTurnOut (ev : ToolResultEvent) (r : PromptRollup) (t : TurnRollup) : TurnRollup :=
  ((processToolResult ev r (some t)).2).getD t


/-- A concrete state with an open thread, a fresh rollup and no open
turn, used by the C1 witness. -/
def c1State : ExtState :=
  { initState with
    currentThreadSpan := some (mkBlankSpan 1 2 none "Thread" 0)
    currentThreadRollup := some createPromptRollup }

/-- A concrete successful bash tool result for the C1 witness. -/
def c1ResultEvent : ToolResultEvent :=
  { toolCallId := "c1"
    toolName := "bash"
    input := .obj [("command", .str "ls -la")]
    content := [.text "ok"]
    details := none
    isError := false }

/-- A concrete assistant message closing the witness turn. -/
def c1Msg : Msg :=
  { role := "assistant", stopReason := none, usage := none, content := none }

/-- A concrete turn block with two tool calls, only one of which ever
receives a result. -/
def c1Block : TurnBlock :=
  { tStart := 1
    turnIndex := 0
    timestamp := 1
    ctxStart := testCtx
    toolEvents := [.call 2 "bash" "c1" testCtx, .result 3 c1ResultEvent,
      .call 4 "read" "c2" testCtx]
    tEnd := 5
    endMessage := c1Msg
    toolResults := 1 }


/-! # Theorems -/

/-! ## Association-list and attribute-map lemmas -/

theorem getAssoc_setAssoc_self {α : Type} (m : List (String × α)) (k : String) (v : α) :
    getAssoc (setAssoc m k v) k = some v := by
  induction m with
  | nil => simp [getAssoc, setAssoc]
  | cons hd tl ih =>
    by_cases h : hd.1 = k
    · simp [getAssoc, setAssoc, h]
    · simp [getAssoc, setAssoc, h, ih]

theorem getAssoc_setAssoc_ne {α : Type} (m : List (String × α)) (k k' : String) (v : α)
    (h : k' ≠ k) : getAssoc (setAssoc m k' v) k = getAssoc m k := by
  induction m with
  | nil => simp [getAssoc, setAssoc, h]
  | cons hd tl ih =>
    by_cases h2 : hd.1 = k'
    · simp only [setAssoc, h2, if_true, getAssoc]
      rw [if_neg (h2 ▸ h), if_neg (h2 ▸ h)]
    · simp only [setAssoc, h2, if_false, getAssoc]
      by_cases h3 : hd.1 = k
      · simp [h3]
      · simp [h3, ih]

theorem getAttr_setAttr_self (m : AttrMap) (k : String) (v : AttrValue) :
    getAttr (setAttr m k v) k = some v :=
  getAssoc_setAssoc_self m k v

theorem getAttr_setAttr_ne (m : AttrMap) (k k' : String) (v : AttrValue) (h : k' ≠ k) :
    getAttr (setAttr m k' v) k = getAttr m k :=
  getAssoc_setAssoc_ne m k k' v h

theorem setAttrs_nil (m : AttrMap) : setAttrs m [] = m := rfl

theorem setAttrs_cons (m : AttrMap) (x : String × AttrValue) (kvs : AttrMap) :
    setAttrs m (x :: kvs) = setAttrs (setAttr m x.1 x.2) kvs := rfl

theorem setAttrs_append (m : AttrMap) (a b : AttrMap) :
    setAttrs m (a ++ b) = setAttrs (setAttrs m a) b := by
  simp [setAttrs, List.foldl_append]

theorem getAttr_setAttrs_not_mem (m : AttrMap) (kvs : AttrMap) (k : String)
    (h : ∀ kv ∈ kvs, kv.1 ≠ k) : getAttr (setAttrs m kvs) k = getAttr m k := by
  induction kvs generalizing m with
  | nil => rfl
  | cons hd tl ih =>
    rw [setAttrs_cons, ih _ (fun kv hkv => h kv (List.mem_cons_of_mem _ hkv)),
      getAttr_setAttr_ne _ _ _ _ (h hd (List.mem_cons_self _ _))]

theorem getAttr_setAttrs_head (m : AttrMap) (k : String) (v : AttrValue) (kvs : AttrMap)
    (h : ∀ kv ∈ kvs, kv.1 ≠ k) :
    getAttr (setAttrs m ((k, v) :: kvs)) k = some v := by
  rw [setAttrs_cons, getAttr_setAttrs_not_mem _ _ _ h]
  exact getAttr_setAttr_self m k v

/-! ## String-key disequality helpers -/

theorem str_ne_of_length (a b : String) (h : a.length ≠ b.length) : a ≠ b :=
  fun he => h (congrArg String.length he)

/-! ## Lemmas about the whitespace splitter -/

theorem wordsAux_ne_nil (l : List Char) (cur w : List Char)
    (hw : w ∈ wordsAux l cur) : w ≠ [] := by
  induction l generalizing cur with
  | nil =>
    simp only [wordsAux] at hw
    split at hw
    · simp at hw
    · next h =>
      simp only [List.mem_singleton] at hw
      subst hw
      simp only [List.isEmpty_iff] at h
      simpa using h
  | cons c rest ih =>
    simp only [wordsAux] at hw
    split at hw
    · split at hw
      · exact ih _ hw
      · next h =>
        rcases List.mem_cons.mp hw with h1 | h2
        · subst h1
          simp only [List.isEmpty_iff] at h
          simpa using h
        · exact ih _ h2
    · exact ih _ hw

/-! ## C2: truncate is idempotent and a no-op at or under the bound -/

theorem truncate_noop (s : String) (n : Nat) (h : s.length ≤ n) :
    truncate s n = { text := s, length := s.length, truncated := false } := by
  simp [truncate, Nat.not_lt.mpr h]

theorem truncate_text_of_gt (s : String) (n : Nat) (h : s.length > n) :
    (truncate s n).text = String.mk (s.data.take n) ++ truncMarker := by
  simp [truncate, h]

/-- C2: for every string `s` and bound `n`, `truncate` is idempotent on
its own output (`truncate(truncate(s, n).text, n).text =
truncate(s, n).text`), and a string of length at most `n` is returned
unchanged with `truncated = false`. -/
theorem C2_truncate_idempotent_and_noop (s : String) (n : Nat) :
    (truncate (truncate s n).text n).text = (truncate s n).text ∧
    (s.length ≤ n →
      truncate s n = { text := s, length := s.length, truncated := false }) := by
  refine ⟨?_, truncate_noop s n⟩
  by_cases h : s.length > n
  · have hout : (truncate s n).text = String.mk (s.data.take n) ++ truncMarker :=
      truncate_text_of_gt s n h
    have hsd : s.data.length = s.length := rfl
    have htake : (s.data.take n).length = n := by
      simp only [List.length_take]
      omega
    have hlen : (truncate s n).text.length = n + 12 := by
      rw [hout, String.length_append]
      show (s.data.take n).length + truncMarker.length = n + 12
      rw [htake]
      have : truncMarker.length = 12 := by decide
      omega
    have hgt : (truncate s n).text.length > n := by omega
    rw [truncate_text_of_gt _ _ hgt]
    have hdata : (truncate s n).text.data = s.data.take n ++ truncMarker.data := by
      rw [hout, String.data_append]
    rw [hdata]
    have htk : (s.data.take n ++ truncMarker.data).take n = s.data.take n := by
      rw [List.take_append_of_le_length (by omega)]
      simp [List.take_take]
    rw [htk, hout]
  · have h2 : s.length ≤ n := Nat.not_lt.mp h
    rw [truncate_noop s n h2]
    simp only
    rw [truncate_noop s n h2]

/-- Witness for C2 at concrete inputs. -/
theorem C2_truncate_witness :
    (truncate (truncate "hello" 3).text 3).text = (truncate "hello" 3).text ∧
    truncate "ab" 3 = { text := "ab", length := "ab".length, truncated := false } :=
  ⟨(C2_truncate_idempotent_and_noop "hello" 3).1,
   (C2_truncate_idempotent_and_noop "ab" 3).2 (by decide)⟩

/-! ## C6: extractCommand normalization -/

theorem extractCommand_eq_amended (cmd : String) :
    extractCommand cmd = extractCommandSpecC6Amended cmd := by
  unfold extractCommand extractCommandSpecC6Amended
  by_cases ht : (trimL cmd.data).isEmpty
  · simp [ht]
  · simp only [ht, Bool.false_eq_true, if_false]
    cases hw : splitWsL (trimL cmd.data) with
    | nil => rfl
    | cons first rest =>
      have hne : first ≠ [] :=
        wordsAux_ne_nil (trimL cmd.data) [] first
          (by rw [splitWsL] at hw; rw [hw]; exact List.mem_cons_self _ _)
      have hfe : first.isEmpty = false := by
        cases first with
        | nil => exact absurd rfl hne
        | cons a l => rfl
      simp only [hfe, Bool.false_eq_true, if_false]
      cases rest with
      | nil => rfl
      | cons sub tail =>
        have hsub : sub ≠ [] :=
          wordsAux_ne_nil (trimL cmd.data) [] sub
            (by rw [splitWsL] at hw; rw [hw]
                exact List.mem_cons_of_mem _ (List.mem_cons_self _ _))
        by_cases hb : dropDotSlash first = []
        · simp [hb]
        · by_cases hh : sub.head? = some '-'
          · simp [hb, hh]
          · simp [hb, hh, hsub]

/-- C6 counterexample: on the input `"./"` (first token exactly `./`)
the code returns the sentinel `n/a`, while the rule as worded by the
specification (drop the leading `./`, return the base) yields the empty
label, so the claim as stated fails at this input. -/
theorem C6_counterexample :
    extractCommand "./" = "n/a" ∧ extractCommandSpecC6 "./" = "" ∧
    extractCommand "./" ≠ extractCommandSpecC6 "./" :=
  ⟨by decide, by decide, by decide⟩

/-- C6 (amended): `extractCommand` implements the specification's
normalization rule amended with the sentinel for an empty base, and
satisfies the specification's round-trip table. -/
theorem C6_extractCommand_amended :
    (∀ cmd : String, extractCommand cmd = extractCommandSpecC6Amended cmd) ∧
    extractCommand "git status --porcelain" = "git.status" ∧
    extractCommand "npm install -D foo" = "npm.install" ∧
    extractCommand "make lint" = "make.lint" ∧
    extractCommand "ls -la" = "ls" ∧
    extractCommand "./build.sh --prod" = "build.sh" ∧
    extractCommand "" = "n/a" :=
  ⟨extractCommand_eq_amended, by decide, by decide, by decide, by decide, by decide, by decide⟩

/-! ## C3: unmatched tool results are ignored -/

/-- C3: a tool-result event whose call id has no entry in the open-tool
table leaves the controller state entirely unchanged — no span is
buffered for export and no thread- or turn-level rollup is altered.
`step` is a total function, so the handler cannot throw. -/
theorem C3_tool_result_unknown_id (st : ExtState) (now : Rat) (ev : ToolResultEvent)
    (h : getAssoc st.openToolSpans ev.toolCallId = none) :
    step st now (.toolResult ev) = st := by
  simp [step, onToolResult, h]

/-- Witness for C3: an unknown call id on the initial (empty) table. -/
theorem C3_tool_result_witness :
    getAssoc initState.openToolSpans "call-1" = none ∧
    step initState 0 (.toolResult
      { toolCallId := "call-1", toolName := "bash", input := .null,
        content := [], details := none, isError := false }) = initState :=
  ⟨rfl, C3_tool_result_unknown_id initState 0 _ rfl⟩

/-! ## C10: tool calls outside any open turn are dropped -/

/-- C10: a tool-call event processed while no turn is open is dropped
in its entirety: no tool span is created, nothing is registered in the
open-tool table, and no thread- or turn-level counter changes — the
state is returned untouched. -/
theorem C10_tool_call_without_turn (st : ExtState) (now : Rat)
    (toolName toolCallId : String) (ctx : Ctx)
    (h : st.openTurns = []) :
    step st now (.toolCall toolName toolCallId ctx) = st := by
  simp [step, onToolCall, h]

/-- Witness for C10 on the initial state. -/
theorem C10_tool_call_witness :
    initState.openTurns = [] ∧
    step initState 0 (.toolCall "bash" "call-1"
      { cwd := "/w", hasUI := false, model := none, header := none, sessionName := none,
        parentSessionId := none,
        git := { branch := none, commit := none, commitShort := none, worktree := none,
                 commonDir := none, remoteUrl := none, repoName := none, userName := none,
                 userEmail := none },
        gitCacheHit := false, usingOAuth := false, contextUsage := none, activeTools := [],
        thinkingLevel := "off", osPlatform := "linux", osArch := "x64", bunVersion := none,
        nodeVersion := "v20" }) = initState :=
  ⟨rfl, C10_tool_call_without_turn initState 0 "bash" "call-1" _ rfl⟩

/-! ## C7: bufferSpan batching discipline -/

/-- C7: `bufferSpan` appends the serialized OTLP form of the span to
the queue; when the queue has reached `batchSize` it flushes
immediately (the batch is drained and handed to delivery, the timer
cleared), and otherwise a timer flush of `flushIntervalMs` is armed
only when none is pending — a pending timer is never reset. -/
theorem C7_bufferSpan (cfg : TelemetryConfig) (st : ExporterState) (span : Span) :
    ((st.spanBuffer ++ [spanToOTLP span]).length ≥ cfg.batchSize →
      bufferSpan cfg st span =
        { spanBuffer := []
          flushTimer := none
          delivered := st.delivered ++ [st.spanBuffer ++ [spanToOTLP span]] }) ∧
    ((st.spanBuffer ++ [spanToOTLP span]).length < cfg.batchSize →
      bufferSpan cfg st span =
        { spanBuffer := st.spanBuffer ++ [spanToOTLP span]
          flushTimer := if st.flushTimer.isSome then st.flushTimer else some cfg.flushIntervalMs
          delivered := st.delivered }) := by
  constructor
  · intro h
    have hne : (st.spanBuffer ++ [spanToOTLP span]).isEmpty = false := by
      simp
    simp only [List.length_append, List.length_singleton] at h
    simp [bufferSpan, flushStep, h, hne]
  · intro h
    simp only [List.length_append, List.length_singleton] at h
    cases ht : st.flushTimer with
    | none =>
      simp [bufferSpan, scheduleFlush, ht]
      intro hc
      exact absurd hc (by omega)
    | some t =>
      simp [bufferSpan, scheduleFlush, ht]
      intro hc
      exact absurd hc (by omega)

/-- Witness for C7: a batch-size-1 configuration flushes immediately;
a batch-size-10 configuration with no pending timer arms one. -/
theorem C7_bufferSpan_witness :
    (bufferSpan { destination := .disabled, batchSize := 1, flushIntervalMs := 5000 }
        { spanBuffer := [], flushTimer := none, delivered := [] }
        { traceId := 0, spanId := 1, parentSpanId := none, name := "Turn", kind := .internal,
          startTimeMs := 0, endTimeMs := none, durationMs := none, status := .ok,
          attributes := [], links := none } =
      { spanBuffer := []
        flushTimer := none
        delivered := [[spanToOTLP
          { traceId := 0, spanId := 1, parentSpanId := none, name := "Turn", kind := .internal,
            startTimeMs := 0, endTimeMs := none, durationMs := none, status := .ok,
            attributes := [], links := none }]] }) ∧
    (bufferSpan { destination := .disabled, batchSize := 10, flushIntervalMs := 5000 }
        { spanBuffer := [], flushTimer := none, delivered := [] }
        { traceId := 0, spanId := 1, parentSpanId := none, name := "Turn", kind := .internal,
          startTimeMs := 0, endTimeMs := none, durationMs := none, status := .ok,
          attributes := [], links := none } =
      { spanBuffer := [spanToOTLP
          { traceId := 0, spanId := 1, parentSpanId := none, name := "Turn", kind := .internal,
            startTimeMs := 0, endTimeMs := none, durationMs := none, status := .ok,
            attributes := [], links := none }]
        flushTimer := some 5000
        delivered := [] }) := by
  constructor
  · exact (C7_bufferSpan _ _ _).1 (by decide)
  · have h := (C7_bufferSpan
      { destination := .disabled, batchSize := 10, flushIntervalMs := 5000 }
      { spanBuffer := [], flushTimer := none, delivered := [] }
      { traceId := 0, spanId := 1, parentSpanId := none, name := "Turn", kind := .internal,
        startTimeMs := 0, endTimeMs := none, durationMs := none, status := .ok,
        attributes := [], links := none }).2 (by decide)
    simpa using h

/-! ## C8: flush never surfaces a delivery failure -/

/-- C8: for every configuration, exporter state and delivery outcome
(including connection refused, timeout abort and a malformed response),
`flush` performs its synchronous state transition and the delivery
promise observed by the caller settles successfully: rejections are
swallowed by the `.catch` at the export boundary, so no error reaches
the caller. -/
theorem C8_flush_never_raises (cfg : TelemetryConfig) (st : ExporterState)
    (o : DeliveryOutcome) :
    flushObserved cfg st o = (flushStep st, Except.ok ()) := by
  unfold flushObserved
  by_cases h : st.spanBuffer.isEmpty
  · simp [h]
  · simp only [h, Bool.false_eq_true, if_false]
    unfold catchSilent
    cases hE : exportBatchResult cfg.destination o <;> rfl

/-! ## C9: OTLP serialization -/

theorem jsNumToString_intCast (n : Int) : jsNumToString (n : Rat) = toString n := by
  simp [jsNumToString, Rat.den_intCast, Rat.num_intCast]

/-- C9: `spanToOTLP` maps span kind and status onto the numeric enums
(`internal = 1`, `server = 2`, `client = 3`; `unset = 0`, `ok = 1`,
`error = 2`), renders start and end timestamps as decimal strings of
nanoseconds (milliseconds times 1,000,000 — stated for the integer
millisecond timestamps `Date.now` produces), and serializes every
stored attribute as a `{key, value}` entry whose typed field follows
the runtime type of the value: `stringValue` for strings, `boolValue`
for booleans, `intValue` (a decimal string) for integer numbers and
`doubleValue` for non-integer numbers. -/
theorem C9_spanToOTLP (span : Span) :
    ((spanToOTLP span).kind = match span.kind with
      | .internal => 1
      | .server => 2
      | .client => 3) ∧
    ((spanToOTLP span).status.code = match span.status with
      | .unset => 0
      | .ok => 1
      | .error => 2) ∧
    (∀ m : Int, span.startTimeMs = (m : Rat) →
      (spanToOTLP span).startTimeUnixNano = toString (m * 1000000)) ∧
    (∀ m : Int, span.endTimeMs = some ((m : Rat)) →
      (spanToOTLP span).endTimeUnixNano = toString (m * 1000000)) ∧
    ((spanToOTLP span).attributes.length = span.attributes.length) ∧
    (∀ k : String, ∀ v : AttrValue, (k, v) ∈ span.attributes →
      ({ key := k
         value := match v with
           | .str s => .stringValue s
           | .bool b => .boolValue b
           | .num q => if q.den = 1 then .intValue (toString q.num) else .doubleValue q } :
        OTLPAttr) ∈ (spanToOTLP span).attributes) := by
  refine ⟨?_, ?_, ?_, ?_, ?_, ?_⟩
  · obtain ⟨tid, sid, pid, nm, kind, st1, et, dur, stat, attrs, links⟩ := span
    cases kind <;> rfl
  · obtain ⟨tid, sid, pid, nm, kind, st1, et, dur, stat, attrs, links⟩ := span
    cases stat <;> rfl
  · intro m hm
    show jsNumToString (span.startTimeMs * 1000000) = toString (m * 1000000)
    rw [hm, show ((m : Rat) * 1000000) = ((m * 1000000 : Int) : Rat) by push_cast; ring,
      jsNumToString_intCast]
  · intro m hm
    show jsNumToString ((span.endTimeMs.getD span.startTimeMs) * 1000000) = toString (m * 1000000)
    rw [hm]
    show jsNumToString ((m : Rat) * 1000000) = toString (m * 1000000)
    rw [show ((m : Rat) * 1000000) = ((m * 1000000 : Int) : Rat) by push_cast; ring,
      jsNumToString_intCast]
  · simp [spanToOTLP, toAttributes]
  · intro k v hmem
    show _ ∈ toAttributes span.attributes
    have : ({ key := k, value := toOTLPValue v } : OTLPAttr) ∈ toAttributes span.attributes := by
      unfold toAttributes
      exact List.mem_map_of_mem _ hmem
    cases v with
    | str s => exact this
    | num q => exact this
    | bool b => exact this

/-- Witness for C9 at a concrete span with one attribute of each
runtime type (including an integer and a non-integer number). -/
theorem C9_spanToOTLP_witness :
    ((spanToOTLP
      { traceId := 7, spanId := 8, parentSpanId := none, name := "Thread", kind := .internal,
        startTimeMs := (1700000000000 : Int), endTimeMs := some ((1700000000250 : Int) : Rat),
        durationMs := some 250, status := .error,
        attributes := [("session.id", .str "s1"), ("main", .bool true),
          ("tool.count", .num 3), ("cost.total", .num (mkRat 1 2))],
        links := none }).startTimeUnixNano = toString ((1700000000000 : Int) * 1000000)) ∧
    (({ key := "tool.count", value := .intValue (toString (3 : Int)) } : OTLPAttr) ∈
      (spanToOTLP
      { traceId := 7, spanId := 8, parentSpanId := none, name := "Thread", kind := .internal,
        startTimeMs := (1700000000000 : Int), endTimeMs := some ((1700000000250 : Int) : Rat),
        durationMs := some 250, status := .error,
        attributes := [("session.id", .str "s1"), ("main", .bool true),
          ("tool.count", .num 3), ("cost.total", .num (mkRat 1 2))],
        links := none }).attributes) ∧
    (({ key := "cost.total", value := .doubleValue (mkRat 1 2) } : OTLPAttr) ∈
      (spanToOTLP
      { traceId := 7, spanId := 8, parentSpanId := none, name := "Thread", kind := .internal,
        startTimeMs := (1700000000000 : Int), endTimeMs := some ((1700000000250 : Int) : Rat),
        durationMs := some 250, status := .error,
        attributes := [("session.id", .str "s1"), ("main", .bool true),
          ("tool.count", .num 3), ("cost.total", .num (mkRat 1 2))],
        links := none }).attributes) := by
  refine ⟨?_, ?_, ?_⟩
  · exact (C9_spanToOTLP _).2.2.1 1700000000000 (by norm_num)
  · have h := (C9_spanToOTLP
      { traceId := 7, spanId := 8, parentSpanId := none, name := "Thread", kind := .internal,
        startTimeMs := (1700000000000 : Int), endTimeMs := some ((1700000000250 : Int) : Rat),
        durationMs := some 250, status := .error,
        attributes := [("session.id", .str "s1"), ("main", .bool true),
          ("tool.count", .num 3), ("cost.total", .num (mkRat 1 2))],
        links := none }).2.2.2.2.2 "tool.count" (.num 3) (by simp)
    simpa using h
  · have h := (C9_spanToOTLP
      { traceId := 7, spanId := 8, parentSpanId := none, name := "Thread", kind := .internal,
        startTimeMs := (1700000000000 : Int), endTimeMs := some ((1700000000250 : Int) : Rat),
        durationMs := some 250, status := .error,
        attributes := [("session.id", .str "s1"), ("main", .bool true),
          ("tool.count", .num 3), ("cost.total", .num (mkRat 1 2))],
        links := none }).2.2.2.2.2 "cost.total" (.num (mkRat 1 2)) (by simp)
    simpa [show (mkRat 1 2).den = 2 by decide] using h

/-! ## Lemmas about span closing and thread teardown -/

theorem closeSpan_status (now : Rat) (span : Span) (status : SpanStatus) :
    (closeSpan now span status).status = status := by
  unfold closeSpan
  split <;> rfl

theorem closeSpan_spanId (now : Rat) (span : Span) (status : SpanStatus) :
    (closeSpan now span status).spanId = span.spanId := by
  unfold closeSpan
  split <;> rfl

theorem closeSpan_traceId (now : Rat) (span : Span) (status : SpanStatus) :
    (closeSpan now span status).traceId = span.traceId := by
  unfold closeSpan
  split <;> rfl

theorem closeSpan_name (now : Rat) (span : Span) (status : SpanStatus) :
    (closeSpan now span status).name = span.name := by
  unfold closeSpan
  split <;> rfl

theorem closeSpan_ok_attributes (now : Rat) (span : Span) :
    (closeSpan now span .ok).attributes = span.attributes := rfl

theorem exported_foldl_turns (l : List (Span × TurnRollup)) (st : ExtState) (now : Rat) :
    l.foldl (fun acc tr => endSpan acc now (applyTurnRollupToSpan tr.1 tr.2) .error) st =
    { st with
        exported := st.exported ++
          l.map (fun tr => closeSpan now (applyTurnRollupToSpan tr.1 tr.2) .error) } := by
  induction l generalizing st with
  | nil => simp
  | cons hd tl ih =>
    simp only [List.foldl_cons, List.map_cons]
    rw [ih]
    simp [endSpan]

theorem exported_foldl_tools (l : List (String × OpenToolEntry)) (st : ExtState) (now : Rat) :
    l.foldl (fun acc e => endSpan acc now e.2.span .error) st =
    { st with exported := st.exported ++ l.map (fun e => closeSpan now e.2.span .error) } := by
  induction l generalizing st with
  | nil => simp
  | cons hd tl ih =>
    simp only [List.foldl_cons, List.map_cons]
    rw [ih]
    simp [endSpan]

theorem endThread_spec (st : ExtState) (now : Rat) (status : SpanStatus) (th : Span)
    (r : PromptRollup)
    (h1 : st.currentThreadSpan = some th) (h2 : st.currentThreadRollup = some r) :
    endThread st now status =
      (some (th.traceId, th.spanId),
       { st with
         currentThreadSpan := none
         currentThreadRollup := none
         currentModel := none
         lastModel := none
         capturedInput := none
         capturedSystemPrompt := none
         openTurns := []
         openToolSpans := []
         exported := st.exported ++
           st.openTurns.map (fun tr => closeSpan now (applyTurnRollupToSpan tr.1 tr.2) .error) ++
           st.openToolSpans.map (fun e => closeSpan now e.2.span .error) ++
           [closeSpan now (threadFoldSpan th r status) status] }) := by
  unfold endThread
  rw [h1, h2]
  dsimp only
  rw [exported_foldl_turns, exported_foldl_tools]
  simp [endSpan, threadFoldSpan, applyPromptRollupToSpan, List.append_assoc]

theorem startThread_spec (st : ExtState) (now : Rat) (ctx : Ctx) (link : Option ThreadLinkInfo) :
    ∃ nt : Span,
      (startThread st now ctx link).currentThreadSpan = some nt ∧
      nt.name = "Thread" ∧
      nt.links = link.map (fun l =>
        [{ traceId := l.traceId, spanId := l.spanId,
           attributes := [("link.relation", AttrValue.str l.relation)] }]) ∧
      (startThread st now ctx link).currentThreadRollup.isSome = true ∧
      (startThread st now ctx link).exported = st.exported ∧
      (startThread st now ctx link).openTurns = [] := by
  cases link with
  | none =>
    refine ⟨_, rfl, rfl, ?_, ?_, rfl, rfl⟩
    · rfl
    · cases hm : ctx.model <;> simp [startThread, createSpan, genId, hm]
  | some l =>
    refine ⟨_, rfl, rfl, ?_, ?_, rfl, rfl⟩
    · rfl
    · cases hm : ctx.model <;> simp [startThread, createSpan, genId, hm]

theorem threadFoldSpan_spanId (th : Span) (r : PromptRollup) (status : SpanStatus) :
    (threadFoldSpan th r status).spanId = th.spanId := by
  simp [threadFoldSpan, applyPromptRollupToSpan]

theorem threadFoldSpan_traceId (th : Span) (r : PromptRollup) (status : SpanStatus) :
    (threadFoldSpan th r status).traceId = th.traceId := by
  simp [threadFoldSpan, applyPromptRollupToSpan]

/-! ## C4: forced shutdown exports all open spans with error status -/

/-- C4: when shutdown arrives with one open turn span, two open tool
spans and an open thread span, exactly four spans are appended to the
export stream — the turn span, then the two tool spans, each closed
with status `error`, and the thread span last, also with status
`error` — and every open-span table is left empty. -/
theorem C4_shutdown_exports (st : ExtState) (now : Rat) (th : Span) (r : PromptRollup)
    (tu : Span) (tr : TurnRollup) (id1 id2 : String) (e1 e2 : OpenToolEntry)
    (h1 : st.currentThreadSpan = some th) (h2 : st.currentThreadRollup = some r)
    (h3 : st.openTurns = [(tu, tr)]) (h4 : st.openToolSpans = [(id1, e1), (id2, e2)]) :
    ∃ tu' a' b' th' : Span,
      (step st now .sessionShutdown).exported = st.exported ++ [tu', a', b', th'] ∧
      tu'.status = .error ∧ a'.status = .error ∧ b'.status = .error ∧ th'.status = .error ∧
      tu'.spanId = tu.spanId ∧ a'.spanId = e1.span.spanId ∧ b'.spanId = e2.span.spanId ∧
      th'.spanId = th.spanId ∧
      (step st now .sessionShutdown).currentThreadSpan = none ∧
      (step st now .sessionShutdown).openTurns = [] ∧
      (step st now .sessionShutdown).openToolSpans = [] := by
  simp only [step]
  have hth2 : ∃ th2 : Span, th2.spanId = th.spanId ∧
      (match st.currentThreadSpan with
       | some tspan =>
         let kvs : AttrMap := [("status", .str "error"), ("aborted", .bool true)]
         let tspan := { tspan with attributes := setAttrs tspan.attributes kvs }
         { st with currentThreadSpan := some tspan }
       | none => st) =
      { st with currentThreadSpan := some th2 } := by
    rw [h1]
    exact ⟨{ th with attributes := setAttrs th.attributes [("status", AttrValue.str "error"), ("aborted", AttrValue.bool true)] }, rfl, rfl⟩
  obtain ⟨th2, hid, hmid⟩ := hth2
  have hshut : onSessionShutdown st now =
      (endThread { st with currentThreadSpan := some th2 } now .error).2 := by
    unfold onSessionShutdown
    rw [hmid]
  rw [hshut]
  have h2b : ({ st with currentThreadSpan := some th2 } : ExtState).currentThreadRollup = some r := h2
  rw [endThread_spec _ now .error th2 r rfl h2b]
  refine ⟨closeSpan now (applyTurnRollupToSpan tu tr) .error,
    closeSpan now e1.span .error,
    closeSpan now e2.span .error,
    closeSpan now (threadFoldSpan th2 r .error) .error, ?_,
    closeSpan_status _ _ _, closeSpan_status _ _ _, closeSpan_status _ _ _,
    closeSpan_status _ _ _, closeSpan_spanId _ _ _, closeSpan_spanId _ _ _,
    closeSpan_spanId _ _ _, ?_, rfl, rfl, rfl⟩
  · dsimp only
    rw [h3, h4]
    simp
  · rw [closeSpan_spanId, threadFoldSpan_spanId]
    exact hid


/-- Witness for C4 on the concrete state with one open turn and two
open tool spans. -/
theorem C4_shutdown_witness :
    ∃ tu' a' b' th' : Span,
      (step c4WitnessState 10 .sessionShutdown).exported =
        c4WitnessState.exported ++ [tu', a', b', th'] ∧
      tu'.status = .error ∧ a'.status = .error ∧ b'.status = .error ∧ th'.status = .error ∧
      tu'.spanId = (mkBlankSpan 1 3 (some 2) "Turn" 1).spanId ∧
      a'.spanId = (mkBlankSpan 1 4 (some 3) "Bash" 2).spanId ∧
      b'.spanId = (mkBlankSpan 1 5 (some 3) "Read" 3).spanId ∧
      th'.spanId = (mkBlankSpan 1 2 none "Thread" 0).spanId ∧
      (step c4WitnessState 10 .sessionShutdown).currentThreadSpan = none ∧
      (step c4WitnessState 10 .sessionShutdown).openTurns = [] ∧
      (step c4WitnessState 10 .sessionShutdown).openToolSpans = [] :=
  C4_shutdown_exports c4WitnessState 10 (mkBlankSpan 1 2 none "Thread" 0) createPromptRollup
    (mkBlankSpan 1 3 (some 2) "Turn" 1) createTurnRollup "c1" "c2"
    { span := mkBlankSpan 1 4 (some 3) "Bash" 2, startTime := 2, turnSpanId := 3 }
    { span := mkBlankSpan 1 5 (some 3) "Read" 3, startTime := 3, turnSpanId := 3 }
    rfl rfl rfl rfl

theorem createSessionEventSpan_eq (st : ExtState) (now : Rat) (nm : String) (ctx : Ctx) :
    createSessionEventSpan st now nm ctx =
    ((createSessionEventSpan st now nm ctx).1, { st with nextId := st.nextId + 2 }) := by
  refine Prod.ext rfl ?_
  show (createSessionEventSpan st now nm ctx).2 = _
  simp [createSessionEventSpan, createSpan, genId]

/-! ## C5: thread-begin events close the old thread and link the new -/

/-- C5: for every thread-begin event (session switch, fork or tree
navigation) processed while a thread is open, the previous thread span
is closed with status `ok` and handed to the exporter (while the new
thread span is opened, unexported, so the old thread is closed before
the new one), the state again holds an open thread, and whenever the
event specifies a link relation (`resume` for a switch with reason
`"resume"`, always for fork and tree) the new thread span carries
exactly one link whose `traceId` and `spanId` are those of the prior
thread span, tagged with that relation; a switch with any other reason
records no link. -/
theorem C5_thread_begin (st : ExtState) (now : Rat) (e : Event) (rel : Option String)
    (th : Span) (r : PromptRollup)
    (he : threadBeginLink e = some rel)
    (h1 : st.currentThreadSpan = some th) (h2 : st.currentThreadRollup = some r) :
    ∃ (pre post : List Span) (th' nt : Span),
      (step st now e).exported = st.exported ++ pre ++ [th'] ++ post ∧
      th'.traceId = th.traceId ∧ th'.spanId = th.spanId ∧ th'.status = .ok ∧
      (step st now e).currentThreadSpan = some nt ∧
      (step st now e).currentThreadRollup.isSome = true ∧
      nt.links = rel.map (fun relName =>
        [{ traceId := th.traceId, spanId := th.spanId,
           attributes := [("link.relation", AttrValue.str relName)] }]) := by
  obtain ⟨stE, hstE, hexpE⟩ :
      ∃ stE, endThread st now .ok = (some (th.traceId, th.spanId), stE) ∧
        stE.exported = st.exported ++
          (st.openTurns.map (fun tr => closeSpan now (applyTurnRollupToSpan tr.1 tr.2) .error) ++
           st.openToolSpans.map (fun ee => closeSpan now ee.2.span .error)) ++
          [closeSpan now (threadFoldSpan th r .ok) .ok] := by
    rw [endThread_spec st now .ok th r h1 h2]
    refine ⟨_, rfl, ?_⟩
    dsimp only
    simp [List.append_assoc]
  cases e with
  | sessionSwitch reason ctx =>
    simp only [threadBeginLink, Option.some.injEq] at he
    subst he
    simp only [step, onSessionSwitch]
    rw [hstE]
    by_cases hres : reason = "resume"
    · rw [if_pos hres, if_pos hres]
      simp only [Option.map_some']
      obtain ⟨nt, hnt, hname, hlinks, hroll, hexp, hot⟩ :=
        startThread_spec stE now ctx
          (some { traceId := th.traceId, spanId := th.spanId, relation := "resume" })
      refine ⟨st.openTurns.map (fun tr => closeSpan now (applyTurnRollupToSpan tr.1 tr.2) .error) ++
          st.openToolSpans.map (fun ee => closeSpan now ee.2.span .error),
        [], closeSpan now (threadFoldSpan th r .ok) .ok, nt, ?_, ?_, ?_, ?_, hnt, hroll, ?_⟩
      · rw [hexp, hexpE]
        simp [List.append_assoc]
      · rw [closeSpan_traceId, threadFoldSpan_traceId]
      · rw [closeSpan_spanId, threadFoldSpan_spanId]
      · exact closeSpan_status _ _ _
      · rw [hlinks]
        rfl
    · rw [if_neg hres, if_neg hres]
      obtain ⟨nt, hnt, hname, hlinks, hroll, hexp, hot⟩ := startThread_spec stE now ctx none
      refine ⟨st.openTurns.map (fun tr => closeSpan now (applyTurnRollupToSpan tr.1 tr.2) .error) ++
          st.openToolSpans.map (fun ee => closeSpan now ee.2.span .error),
        [], closeSpan now (threadFoldSpan th r .ok) .ok, nt, ?_, ?_, ?_, ?_, hnt, hroll, ?_⟩
      · rw [hexp, hexpE]
        simp [List.append_assoc]
      · rw [closeSpan_traceId, threadFoldSpan_traceId]
      · rw [closeSpan_spanId, threadFoldSpan_spanId]
      · exact closeSpan_status _ _ _
      · rw [hlinks]
        rfl
  | sessionFork prevSessionId ctx =>
    simp only [threadBeginLink, Option.some.injEq] at he
    subst he
    obtain ⟨nt, hnt, hname, hlinks, hroll, hexp, hot⟩ :=
      startThread_spec stE now ctx
        (some { traceId := th.traceId, spanId := th.spanId, relation := "fork" })
    obtain ⟨tl, htl⟩ :
        ∃ tl, (step st now (Event.sessionFork prevSessionId ctx)).exported = stE.exported ++ tl := by
      simp only [step, onSessionFork]
      rw [hstE]
      simp only [Option.map_some']
      rw [createSessionEventSpan_eq]
      simp only [endSpan]
      try dsimp only
      rw [hexp]
      exact ⟨_, rfl⟩
    have hspanF : (step st now (Event.sessionFork prevSessionId ctx)).currentThreadSpan = some nt := by
      simp only [step, onSessionFork]
      rw [hstE]
      simp only [Option.map_some']
      rw [createSessionEventSpan_eq]
      simp only [endSpan]
      try dsimp only
      exact hnt
    have hrollF :
        (step st now (Event.sessionFork prevSessionId ctx)).currentThreadRollup.isSome = true := by
      simp only [step, onSessionFork]
      rw [hstE]
      simp only [Option.map_some']
      rw [createSessionEventSpan_eq]
      simp only [endSpan]
      try dsimp only
      exact hroll
    refine ⟨st.openTurns.map (fun tr => closeSpan now (applyTurnRollupToSpan tr.1 tr.2) .error) ++
        st.openToolSpans.map (fun ee => closeSpan now ee.2.span .error),
      tl, closeSpan now (threadFoldSpan th r .ok) .ok, nt, ?_, ?_, ?_, ?_, hspanF, hrollF, ?_⟩
    · rw [htl, hexpE]
    · rw [closeSpan_traceId, threadFoldSpan_traceId]
    · rw [closeSpan_spanId, threadFoldSpan_spanId]
    · exact closeSpan_status _ _ _
    · rw [hlinks]
      rfl
  | sessionTree o n se fe ctx =>
    simp only [threadBeginLink, Option.some.injEq] at he
    subst he
    obtain ⟨nt, hnt, hname, hlinks, hroll, hexp, hot⟩ :=
      startThread_spec stE now ctx
        (some { traceId := th.traceId, spanId := th.spanId, relation := "tree" })
    obtain ⟨nt2, hnt2span, hnt2links⟩ :
        ∃ nt2, (step st now (Event.sessionTree o n se fe ctx)).currentThreadSpan = some nt2 ∧
          nt2.links = nt.links := by
      simp only [step, onSessionTree]
      rw [hstE]
      simp only [Option.map_some']
      rw [hnt]
      try dsimp only
      rw [createSessionEventSpan_eq]
      simp only [endSpan]
      try dsimp only
      exact ⟨_, rfl, rfl⟩
    obtain ⟨tl, htl⟩ :
        ∃ tl, (step st now (Event.sessionTree o n se fe ctx)).exported = stE.exported ++ tl := by
      simp only [step, onSessionTree]
      rw [hstE]
      simp only [Option.map_some']
      rw [hnt]
      try dsimp only
      rw [createSessionEventSpan_eq]
      simp only [endSpan]
      try dsimp only
      rw [hexp]
      exact ⟨_, rfl⟩
    have hrollF :
        (step st now (Event.sessionTree o n se fe ctx)).currentThreadRollup.isSome = true := by
      simp only [step, onSessionTree]
      rw [hstE]
      simp only [Option.map_some']
      rw [hnt]
      try dsimp only
      rw [createSessionEventSpan_eq]
      simp only [endSpan]
      try dsimp only
      exact hroll
    refine ⟨st.openTurns.map (fun tr => closeSpan now (applyTurnRollupToSpan tr.1 tr.2) .error) ++
        st.openToolSpans.map (fun ee => closeSpan now ee.2.span .error),
      tl, closeSpan now (threadFoldSpan th r .ok) .ok, nt2, ?_, ?_, ?_, ?_, hnt2span, hrollF, ?_⟩
    · rw [htl, hexpE]
    · rw [closeSpan_traceId, threadFoldSpan_traceId]
    · rw [closeSpan_spanId, threadFoldSpan_spanId]
    · exact closeSpan_status _ _ _
    · rw [hnt2links, hlinks]
      rfl
  | sessionStart ctx => simp [threadBeginLink] at he
  | input a b c => simp [threadBeginLink] at he
  | beforeAgentStart a => simp [threadBeginLink] at he
  | agentStart a => simp [threadBeginLink] at he
  | agentEnd a b => simp [threadBeginLink] at he
  | turnStart a b c => simp [threadBeginLink] at he
  | turnEnd a b => simp [threadBeginLink] at he
  | modelSelect a b => simp [threadBeginLink] at he
  | toolCall a b c => simp [threadBeginLink] at he
  | toolResult a => simp [threadBeginLink] at he
  | sessionCompact a b => simp [threadBeginLink] at he
  | sessionShutdown => simp [threadBeginLink] at he

/-- Witness for C5: a `session_switch` with reason `"resume"` on the
concrete open-thread state. -/
theorem C5_thread_begin_witness :
    ∃ (pre post : List Span) (th' nt : Span),
      (step c4WitnessState 20 (.sessionSwitch "resume" testCtx)).exported =
        c4WitnessState.exported ++ pre ++ [th'] ++ post ∧
      th'.traceId = (mkBlankSpan 1 2 none "Thread" 0).traceId ∧
      th'.spanId = (mkBlankSpan 1 2 none "Thread" 0).spanId ∧
      th'.status = .ok ∧
      (step c4WitnessState 20 (.sessionSwitch "resume" testCtx)).currentThreadSpan = some nt ∧
      (step c4WitnessState 20 (.sessionSwitch "resume" testCtx)).currentThreadRollup.isSome = true ∧
      nt.links = (some "resume").map (fun relName =>
        [{ traceId := (mkBlankSpan 1 2 none "Thread" 0).traceId,
           spanId := (mkBlankSpan 1 2 none "Thread" 0).spanId,
           attributes := [("link.relation", AttrValue.str relName)] }]) :=
  C5_thread_begin c4WitnessState 20 (.sessionSwitch "resume" testCtx) (some "resume")
    (mkBlankSpan 1 2 none "Thread" 0) createPromptRollup (by decide) rfl rfl

/-! ## Attribute-key disequalities for the rollup folds -/

theorem ne_turn_tool_X_count (t : String) :
    ("turn.tool." ++ t ++ ".count") ≠ "turn.tool.count" := by
  apply str_ne_of_length
  rw [String.length_append, String.length_append,
    show ("turn.tool." : String).length = 10 from rfl,
    show (".count" : String).length = 6 from rfl,
    show ("turn.tool.count" : String).length = 15 from rfl]
  omega

theorem ne_turn_bash_cmd (c : String) :
    ("turn.bash.cmd." ++ c) ≠ "turn.tool.count" := by
  intro he
  have h := congrArg (fun s : String => s.data[5]?) he
  simp only [String.data_append] at h
  rw [List.getElem?_append_left (by decide)] at h
  exact absurd h (by decide)

theorem ne_turn_file (f : String) :
    ("turn.file." ++ f) ≠ "turn.tool.count" := by
  intro he
  have h := congrArg (fun s : String => s.data[5]?) he
  simp only [String.data_append] at h
  rw [List.getElem?_append_left (by decide)] at h
  exact absurd h (by decide)

theorem ne_tool_X_count (t : String) : ("tool." ++ t ++ ".count") ≠ "tool.count" := by
  apply str_ne_of_length
  rw [String.length_append, String.length_append,
    show ("tool." : String).length = 5 from rfl,
    show (".count" : String).length = 6 from rfl,
    show ("tool.count" : String).length = 10 from rfl]
  omega

theorem ne_tool_X_duration (t : String) :
    ("tool." ++ t ++ ".duration_ms") ≠ "tool.count" := by
  apply str_ne_of_length
  rw [String.length_append, String.length_append,
    show ("tool." : String).length = 5 from rfl,
    show (".duration_ms" : String).length = 12 from rfl,
    show ("tool.count" : String).length = 10 from rfl]
  omega

theorem ne_tool_X_error (t : String) :
    ("tool." ++ t ++ ".error_count") ≠ "tool.count" := by
  apply str_ne_of_length
  rw [String.length_append, String.length_append,
    show ("tool." : String).length = 5 from rfl,
    show (".error_count" : String).length = 12 from rfl,
    show ("tool.count" : String).length = 10 from rfl]
  omega

theorem ne_tool_X_bytes (t : String) :
    ("tool." ++ t ++ ".bytes_total") ≠ "tool.count" := by
  apply str_ne_of_length
  rw [String.length_append, String.length_append,
    show ("tool." : String).length = 5 from rfl,
    show (".bytes_total" : String).length = 12 from rfl,
    show ("tool.count" : String).length = 10 from rfl]
  omega

theorem ne_bash_cmd_X (c : String) : ("bash.cmd." ++ c) ≠ "tool.count" := by
  intro he
  have h := congrArg (fun s : String => s.data[0]?) he
  simp only [String.data_append] at h
  rw [List.getElem?_append_left (by decide)] at h
  exact absurd h (by decide)

theorem ne_file_X (f : String) : ("file." ++ f) ≠ "tool.count" := by
  intro he
  have h := congrArg (fun s : String => s.data[0]?) he
  simp only [String.data_append] at h
  rw [List.getElem?_append_left (by decide)] at h
  exact absurd h (by decide)

theorem ne_tool_X_file_Y (t f : String) :
    ("tool." ++ t ++ ".file." ++ f) ≠ "tool.count" := by
  apply str_ne_of_length
  rw [String.length_append, String.length_append, String.length_append,
    show ("tool." : String).length = 5 from rfl,
    show (".file." : String).length = 6 from rfl,
    show ("tool.count" : String).length = 10 from rfl]
  omega

theorem ne_tool_X_unique_files (t : String) :
    ("tool." ++ t ++ ".unique_files") ≠ "tool.count" := by
  apply str_ne_of_length
  rw [String.length_append, String.length_append,
    show ("tool." : String).length = 5 from rfl,
    show (".unique_files" : String).length = 13 from rfl,
    show ("tool.count" : String).length = 10 from rfl]
  omega

/-! ## Reading a single key off the rollup attribute folds -/

theorem getAttr_setAttrs_layers (m : AttrMap) (L1 L2 : AttrMap) (k : String)
    (h : ∀ kv ∈ L2, kv.1 ≠ k) :
    getAttr (setAttrs m (L1 ++ L2)) k = getAttr (setAttrs m L1) k := by
  rw [setAttrs_append, getAttr_setAttrs_not_mem _ _ _ h]

theorem notmem_one (k1 key : String) (v1 : AttrValue) (h1 : k1 ≠ key) :
    ∀ kv ∈ ([(k1, v1)] : AttrMap), kv.1 ≠ key := by
  intro kv hkv
  rw [List.mem_singleton.mp hkv]
  exact h1

theorem notmem_two (k1 k2 key : String) (v1 v2 : AttrValue) (h1 : k1 ≠ key) (h2 : k2 ≠ key) :
    ∀ kv ∈ ([(k1, v1), (k2, v2)] : AttrMap), kv.1 ≠ key := by
  intro kv hkv
  rcases List.mem_cons.mp hkv with rfl | hkv
  · exact h1
  · rw [List.mem_singleton.mp hkv]
    exact h2

theorem notmem_ite (c : Prop) [Decidable c] (L : AttrMap) (key : String)
    (h : ∀ kv ∈ L, kv.1 ≠ key) : ∀ kv ∈ (if c then L else []), kv.1 ≠ key := by
  intro kv hkv
  split at hkv
  · exact h kv hkv
  · exact absurd hkv (List.not_mem_nil kv)

theorem notmem_toolCounts_layer (l : CntMap) :
    ∀ kv ∈ l.map (fun tc => ("tool." ++ tc.1 ++ ".count", AttrValue.num tc.2)),
      kv.1 ≠ "tool.count" := by
  intro kv hkv
  rcases List.mem_map.mp hkv with ⟨x, _, rfl⟩
  exact ne_tool_X_count x.1

theorem notmem_toolDurations_layer (l : CntMap) :
    ∀ kv ∈ l.map (fun td => ("tool." ++ td.1 ++ ".duration_ms", AttrValue.num td.2)),
      kv.1 ≠ "tool.count" := by
  intro kv hkv
  rcases List.mem_map.mp hkv with ⟨x, _, rfl⟩
  exact ne_tool_X_duration x.1

theorem notmem_toolErrors_layer (l : CntMap) :
    ∀ kv ∈ l.map (fun te => ("tool." ++ te.1 ++ ".error_count", AttrValue.num te.2)),
      kv.1 ≠ "tool.count" := by
  intro kv hkv
  rcases List.mem_map.mp hkv with ⟨x, _, rfl⟩
  exact ne_tool_X_error x.1

theorem notmem_toolBytes_layer (l : CntMap) :
    ∀ kv ∈ l.map (fun tb => ("tool." ++ tb.1 ++ ".bytes_total", AttrValue.num tb.2)),
      kv.1 ≠ "tool.count" := by
  intro kv hkv
  rcases List.mem_map.mp hkv with ⟨x, _, rfl⟩
  exact ne_tool_X_bytes x.1

theorem notmem_bashCommands_layer (l : CntMap) :
    ∀ kv ∈ l.map (fun cc => ("bash.cmd." ++ cc.1, AttrValue.num cc.2)),
      kv.1 ≠ "tool.count" := by
  intro kv hkv
  rcases List.mem_map.mp hkv with ⟨x, _, rfl⟩
  exact ne_bash_cmd_X x.1

theorem notmem_fileOps_layer (l : CntMap) :
    ∀ kv ∈ l.map (fun fc => ("file." ++ fc.1, AttrValue.num fc.2)),
      kv.1 ≠ "tool.count" := by
  intro kv hkv
  rcases List.mem_map.mp hkv with ⟨x, _, rfl⟩
  exact ne_file_X x.1

theorem notmem_filesByTool_layer (l : List (String × CntMap)) :
    ∀ kv ∈ (l.map (fun tf =>
        tf.2.map (fun fc => ("tool." ++ tf.1 ++ ".file." ++ fc.1, AttrValue.num fc.2)) ++
        [("tool." ++ tf.1 ++ ".unique_files", AttrValue.num (tf.2.length : Rat))])).flatten,
      kv.1 ≠ "tool.count" := by
  intro kv hkv
  rcases List.mem_flatten.mp hkv with ⟨sub, hsub, hkv⟩
  rcases List.mem_map.mp hsub with ⟨x, _, rfl⟩
  rcases List.mem_append.mp hkv with h | h
  · rcases List.mem_map.mp h with ⟨y, _, rfl⟩
    exact ne_tool_X_file_Y x.1 y.1
  · rw [List.mem_singleton.mp h]
    exact ne_tool_X_unique_files x.1

/-- After `applyPromptRollupToSpan`'s attribute fold, the `tool.count`
attribute holds exactly `rollup.toolCount`: every assignment performed
after the `tool.count` assignment targets a different key. -/
theorem getAttr_promptRollupAttrs_toolCount (m : AttrMap) (r : PromptRollup) :
    getAttr (setAttrs m (promptRollupAttrs r)) "tool.count" = some (.num r.toolCount) := by
  unfold promptRollupAttrs
  rw [getAttr_setAttrs_layers _ _ _ _ (notmem_ite _ _ _
        (notmem_two "compaction.tokens_before" "compaction.from_extension" "tool.count" _ _
          (by decide) (by decide)))]
  rw [getAttr_setAttrs_layers _ _ _ _
        (notmem_one "compaction.occurred" "tool.count" _ (by decide))]
  rw [getAttr_setAttrs_layers _ _ _ _ (notmem_filesByTool_layer r.filesByTool)]
  rw [getAttr_setAttrs_layers _ _ _ _
        (notmem_two "files.unique_count" "files.total_operations" "tool.count" _ _
          (by decide) (by decide))]
  rw [getAttr_setAttrs_layers _ _ _ _ (notmem_fileOps_layer r.fileOperations)]
  rw [getAttr_setAttrs_layers _ _ _ _
        (notmem_one "bash.unique_commands" "tool.count" _ (by decide))]
  rw [getAttr_setAttrs_layers _ _ _ _ (notmem_bashCommands_layer r.bashCommands)]
  rw [getAttr_setAttrs_layers _ _ _ _ (notmem_toolBytes_layer r.toolBytes)]
  rw [getAttr_setAttrs_layers _ _ _ _ (notmem_toolErrors_layer r.toolErrors)]
  rw [getAttr_setAttrs_layers _ _ _ _ (notmem_toolDurations_layer r.toolDurations)]
  rw [getAttr_setAttrs_layers _ _ _ _ (notmem_toolCounts_layer r.toolCounts)]
  rw [setAttrs_append, setAttrs_cons]
  apply getAttr_setAttrs_head
  intro kv hkv
  simp only [List.mem_cons, List.not_mem_nil, or_false] at hkv
  rcases hkv with rfl | rfl | rfl | rfl <;> simp

/-- After `applyTurnRollupToSpan`'s attribute fold, the
`turn.tool.count` attribute holds exactly `rollup.toolCount`. -/
theorem getAttr_turnRollupAttrs_toolCount (m : AttrMap) (tr : TurnRollup) :
    getAttr (setAttrs m (turnRollupAttrs tr)) "turn.tool.count" = some (.num tr.toolCount) := by
  unfold turnRollupAttrs
  simp only [List.cons_append, List.nil_append, List.append_assoc]
  apply getAttr_setAttrs_head
  intro kv hkv
  simp only [List.mem_cons, List.mem_append, List.mem_map, List.not_mem_nil,
    or_false] at hkv
  rcases hkv with rfl | ⟨x, _, rfl⟩ | ⟨x, _, rfl⟩ | ⟨x, _, rfl⟩ | rfl
  · simp
  · exact ne_turn_tool_X_count x.1
  · exact ne_turn_bash_cmd x.1
  · exact ne_turn_file x.1
  · simp


/-! ## C1: tool-count bookkeeping lemmas -/

/-- `processToolResult` is the composition of its four blocks. -/
theorem processToolResult_eq_stages (ev : ToolResultEvent) (r : PromptRollup)
    (lt : Option TurnRollup) :
    processToolResult ev r lt =
      ptrBytesStage ev (ptrTruncStage ev (ptrBashStage ev (ptrFileStage ev (r, lt)))) := rfl

theorem ptrFileStage_counts (ev : ToolResultEvent) (st : PromptRollup × Option TurnRollup) :
    (ptrFileStage ev st).1.toolCount = st.1.toolCount ∧
    (ptrFileStage ev st).2.map TurnRollup.toolCount = st.2.map TurnRollup.toolCount := by
  unfold ptrFileStage
  repeat' split
  all_goals cases hst : st.2 <;> simp [hst]

theorem ptrBashStage_counts (ev : ToolResultEvent) (st : PromptRollup × Option TurnRollup) :
    (ptrBashStage ev st).1.toolCount = st.1.toolCount ∧
    (ptrBashStage ev st).2.map TurnRollup.toolCount = st.2.map TurnRollup.toolCount := by
  unfold ptrBashStage
  repeat' split
  all_goals cases hst : st.2 <;> simp [hst]

theorem ptrTruncStage_counts (ev : ToolResultEvent) (st : PromptRollup × Option TurnRollup) :
    (ptrTruncStage ev st).1.toolCount = st.1.toolCount ∧
    (ptrTruncStage ev st).2.map TurnRollup.toolCount = st.2.map TurnRollup.toolCount := by
  unfold ptrTruncStage
  repeat' split
  all_goals simp

theorem ptrBytesStage_counts (ev : ToolResultEvent) (st : PromptRollup × Option TurnRollup) :
    (ptrBytesStage ev st).1.toolCount = st.1.toolCount ∧
    (ptrBytesStage ev st).2.map TurnRollup.toolCount = st.2.map TurnRollup.toolCount := by
  unfold ptrBytesStage
  repeat' split
  all_goals simp

/-- `processToolResult` never touches the `toolCount` field of either
rollup: it only updates file/bash/truncation/bytes bookkeeping. -/
theorem processToolResult_counts (ev : ToolResultEvent) (r : PromptRollup)
    (lt : Option TurnRollup) :
    (processToolResult ev r lt).1.toolCount = r.toolCount ∧
    (processToolResult ev r lt).2.map TurnRollup.toolCount = lt.map TurnRollup.toolCount := by
  rw [processToolResult_eq_stages]
  obtain ⟨a1, a2⟩ := ptrFileStage_counts ev (r, lt)
  obtain ⟨b1, b2⟩ := ptrBashStage_counts ev (ptrFileStage ev (r, lt))
  obtain ⟨c1, c2⟩ := ptrTruncStage_counts ev (ptrBashStage ev (ptrFileStage ev (r, lt)))
  obtain ⟨d1, d2⟩ := ptrBytesStage_counts ev (ptrTruncStage ev (ptrBashStage ev (ptrFileStage ev (r, lt))))
  exact ⟨by rw [d1, c1, b1, a1], by rw [d2, c2, b2, a2]⟩

theorem processToolResult_fst_toolCount (ev : ToolResultEvent) (r : PromptRollup)
    (lt : Option TurnRollup) :
    (processToolResult ev r lt).1.toolCount = r.toolCount :=
  (processToolResult_counts ev r lt).1

theorem ptr_snd_eq (ev : ToolResultEvent) (r : PromptRollup) (t : TurnRollup) :
    (processToolResult ev r (some t)).2 = some (ptrTurnOut ev r t) := by
  have h := (processToolResult_counts ev r (some t)).2
  rcases hx : (processToolResult ev r (some t)).2 with _ | t0
  · rw [hx] at h
    simp at h
  · unfold ptrTurnOut
    rw [hx]
    rfl

theorem ptrTurnOut_toolCount (ev : ToolResultEvent) (r : PromptRollup) (t : TurnRollup) :
    (ptrTurnOut ev r t).toolCount = t.toolCount := by
  have h := (processToolResult_counts ev r (some t)).2
  rw [ptr_snd_eq] at h
  simpa using h

/-- One tool-phase event preserves the open-thread/single-open-turn
shape; a `tool_call` increments both tool counters by one at call time,
a `tool_result` leaves both counters unchanged. -/
theorem toolEvtStep_c1 (e : ToolEvt) (st : ExtState) (sp tsp : Span) (tr : TurnRollup)
    (r : PromptRollup)
    (h1 : st.currentThreadSpan = some sp)
    (h2 : st.currentThreadRollup = some r)
    (h3 : st.openTurns = [(tsp, tr)]) :
    ∃ tr' r',
      (toolEvtStep st e).currentThreadSpan = some sp ∧
      (toolEvtStep st e).currentThreadRollup = some r' ∧
      (toolEvtStep st e).openTurns = [(tsp, tr')] ∧
      tr'.toolCount = tr.toolCount + (if e.isCall then 1 else 0) ∧
      r'.toolCount = r.toolCount + (if e.isCall then 1 else 0) ∧
      ∃ pre, (toolEvtStep st e).exported = st.exported ++ pre := by
  cases e with
  | call now tn tc ctx =>
    refine ⟨{ tr with toolCount := tr.toolCount + 1, toolCounts := incrementMap tr.toolCounts tn }, { r with toolCount := r.toolCount + 1, toolCounts := incrementMap r.toolCounts tn }, ?_, ?_, ?_, ?_, ?_, [], ?_⟩ <;>
      simp [toolEvtStep, step, onToolCall, h1, h2, h3, createSpan, genId,
        ToolEvt.isCall, List.getLast?_singleton, List.dropLast_single]
  | result now ev =>
    rcases hga : getAssoc st.openToolSpans ev.toolCallId with _ | entry
    · refine ⟨tr, r, ?_, ?_, ?_, ?_, ?_, [], ?_⟩ <;>
        simp [toolEvtStep, step, onToolResult, hga, h1, h2, h3, ToolEvt.isCall]
    · simp only [toolEvtStep, step, onToolResult, hga, h1, h2, h3, ToolEvt.isCall,
        List.findIdx?_cons, List.findIdx?_nil]
      by_cases hsp : tsp.spanId = entry.turnSpanId
      · by_cases herr : ev.isError = true
        · simp only [hsp, herr, if_true, decide_True]
          dsimp only [Option.bind, List.get?, Option.map]
          rw [ptr_snd_eq]
          dsimp only [Option.map, List.set]
          refine ⟨_, _, rfl, rfl, rfl, ?_, ?_, _, rfl⟩
          · simp [ToolEvt.isCall, ptrTurnOut_toolCount]
          · simp [ToolEvt.isCall, processToolResult_fst_toolCount]
        · simp only [hsp, if_neg herr, decide_True, if_true]
          dsimp only [Option.bind, List.get?, Option.map]
          rw [ptr_snd_eq]
          dsimp only [Option.map, List.set]
          refine ⟨_, _, rfl, rfl, rfl, ?_, ?_, _, rfl⟩
          · simp [ToolEvt.isCall, ptrTurnOut_toolCount]
          · simp [ToolEvt.isCall, processToolResult_fst_toolCount]
      · by_cases herr : ev.isError = true
        · simp only [hsp, herr, if_true, decide_False, Bool.false_eq_true, if_false]
          dsimp only [Option.bind, List.get?, Option.map]
          refine ⟨tr, _, rfl, rfl, rfl, ?_, ?_, _, rfl⟩
          · simp [ToolEvt.isCall]
          · simp [ToolEvt.isCall, processToolResult_fst_toolCount]
        · simp only [hsp, if_neg herr, decide_False, Bool.false_eq_true, if_false]
          dsimp only [Option.bind, List.get?, Option.map]
          refine ⟨tr, _, rfl, rfl, rfl, ?_, ?_, _, rfl⟩
          · simp [ToolEvt.isCall]
          · simp [ToolEvt.isCall, processToolResult_fst_toolCount]

/-- The tool phase of a turn: folding any list of tool events over a
state with one open turn preserves the shape and adds exactly the
number of tool-call events to both tool counters. -/
theorem toolPhase_c1 (evts : List ToolEvt) (st : ExtState) (sp tsp : Span)
    (tr : TurnRollup) (r : PromptRollup)
    (h1 : st.currentThreadSpan = some sp)
    (h2 : st.currentThreadRollup = some r)
    (h3 : st.openTurns = [(tsp, tr)]) :
    ∃ tr' r',
      (evts.foldl toolEvtStep st).currentThreadSpan = some sp ∧
      (evts.foldl toolEvtStep st).currentThreadRollup = some r' ∧
      (evts.foldl toolEvtStep st).openTurns = [(tsp, tr')] ∧
      tr'.toolCount = tr.toolCount + (callCount evts : Rat) ∧
      r'.toolCount = r.toolCount + (callCount evts : Rat) ∧
      ∃ pre, (evts.foldl toolEvtStep st).exported = st.exported ++ pre := by
  induction evts generalizing st tr r with
  | nil =>
    exact ⟨tr, r, h1, h2, h3, by simp [callCount], by simp [callCount], [], by simp⟩
  | cons e rest ih =>
    obtain ⟨tr1, r1, g1, g2, g3, g4, g5, pre1, g6⟩ := toolEvtStep_c1 e st sp tsp tr r h1 h2 h3
    obtain ⟨tr2, r2, k1, k2, k3, k4, k5, pre2, k6⟩ :=
      ih (toolEvtStep st e) tr1 r1 g1 g2 g3
    refine ⟨tr2, r2, by simpa using k1, by simpa using k2, by simpa using k3, ?_, ?_, ?_⟩
    · rw [k4, g4]
      cases e with
      | call now tn tc ctx =>
        simp only [ToolEvt.isCall, if_true, callCount, List.filter_cons_of_pos, List.length_cons]
        push_cast
        ring
      | result now ev =>
        simp [callCount, List.filter_cons, ToolEvt.isCall]
    · rw [k5, g5]
      cases e with
      | call now tn tc ctx =>
        simp only [ToolEvt.isCall, if_true, callCount, List.filter_cons_of_pos, List.length_cons]
        push_cast
        ring
      | result now ev =>
        simp [callCount, List.filter_cons, ToolEvt.isCall]
    · refine ⟨pre1 ++ pre2, ?_⟩
      rw [List.foldl_cons, k6, g6, List.append_assoc]

/-- A list whose `snd`-projection is a singleton is a singleton pair. -/
theorem sndmap_singleton {α β : Type} {l : List (α × β)} {c : β}
    (h : l.map Prod.snd = [c]) : ∃ a, l = [(a, c)] := by
  cases l with
  | nil => simp at h
  | cons x l' =>
    cases l' with
    | cons y l'' => simp at h
    | nil =>
      simp only [List.map_cons, List.map_nil, List.cons.injEq, and_true] at h
      refine ⟨x.1, ?_⟩
      rw [← h]

/-- `turn_start` under an open thread with no open turn: it opens one
turn carrying a fresh (all-zero) turn rollup, exports nothing, and
leaves the thread rollup's `toolCount` unchanged. -/
theorem onTurnStart_c1 (st : ExtState) (now ti tstamp : Rat) (ctx : Ctx) (sp : Span)
    (r : PromptRollup)
    (h1 : st.currentThreadSpan = some sp)
    (h2 : st.currentThreadRollup = some r)
    (h3 : st.openTurns = []) :
    (onTurnStart st now ti tstamp ctx).currentThreadSpan = some sp ∧
    (onTurnStart st now ti tstamp ctx).currentThreadRollup.map PromptRollup.toolCount =
      some r.toolCount ∧
    (onTurnStart st now ti tstamp ctx).openTurns.map Prod.snd = [createTurnRollup] ∧
    (onTurnStart st now ti tstamp ctx).exported = st.exported := by
  unfold onTurnStart
  rw [h1, h2]
  dsimp only
  cases hm : ctx.model with
  | none =>
    refine ⟨?_, ?_, ?_, ?_⟩ <;> simp [createSpan, genId, h1, h3]
  | some m =>
    cases hlm : st.lastModel with
    | none =>
      refine ⟨?_, ?_, ?_, ?_⟩ <;> simp [createSpan, genId, h1, h3]
    | some lm =>
      dsimp only
      refine ⟨?_, ?_, ?_, ?_⟩ <;>
        first
        | (split <;> rename_i hsw <;> simp [createSpan, genId, h1, h3, hsw])
        | simp [createSpan, genId, h1, h3]

/-- `turn_end` with exactly one open turn: the turn is closed and is
the single span exported by the handler; its `turn.tool.count`
attribute is exactly the turn rollup's `toolCount`, and the thread
rollup's `toolCount` is untouched. -/
theorem onTurnEnd_c1 (st : ExtState) (now : Rat) (msg : Msg) (nres : Nat) (sp tsp : Span)
    (tr : TurnRollup) (r : PromptRollup)
    (h1 : st.currentThreadSpan = some sp)
    (h2 : st.currentThreadRollup = some r)
    (h3 : st.openTurns = [(tsp, tr)]) :
    (onTurnEnd st now msg nres).currentThreadSpan = some sp ∧
    (onTurnEnd st now msg nres).currentThreadRollup.map PromptRollup.toolCount =
      some r.toolCount ∧
    (onTurnEnd st now msg nres).openTurns = [] ∧
    ∃ cspan, (onTurnEnd st now msg nres).exported = st.exported ++ [cspan] ∧
      getAttr cspan.attributes "turn.tool.count" = some (.num tr.toolCount) := by
  unfold onTurnEnd
  simp only [h2, h3, List.isEmpty_cons, Bool.false_eq_true, if_false,
    List.getLast?_singleton, List.dropLast_single]
  try dsimp only
  refine ⟨?_, ?_, ?_, ?_⟩
  · repeat' split
    all_goals simp [endSpan, h1]
  · repeat' split
    all_goals simp [endSpan]
  · repeat' split
    all_goals simp [endSpan]
  · repeat' split
    all_goals exact ⟨_, rfl, by
      simp only [closeSpan_ok_attributes, applyTurnRollupToSpan]
      exact getAttr_turnRollupAttrs_toolCount _ _⟩

/-- One full turn block from a thread-open/no-open-turn state: the turn
is opened, tooled and closed; the closed turn span is the last span the
block exports and carries `turn.tool.count` equal to the block's
tool-call count; the thread rollup's `toolCount` grows by the same
amount. -/
theorem runBlock_c1 (st : ExtState) (b : TurnBlock) (sp : Span) (r : PromptRollup)
    (h1 : st.currentThreadSpan = some sp)
    (h2 : st.currentThreadRollup = some r)
    (h3 : st.openTurns = []) :
    ∃ r',
      (runBlock st b).currentThreadSpan = some sp ∧
      (runBlock st b).currentThreadRollup = some r' ∧
      (runBlock st b).openTurns = [] ∧
      r'.toolCount = r.toolCount + (callCount b.toolEvents : Rat) ∧
      ∃ pre cspan, (runBlock st b).exported = st.exported ++ pre ++ [cspan] ∧
        getAttr cspan.attributes "turn.tool.count" =
          some (.num (callCount b.toolEvents : Rat)) := by
  simp only [runBlock, step]
  obtain ⟨a1, a2, a3, a4⟩ :=
    onTurnStart_c1 st b.tStart b.turnIndex b.timestamp b.ctxStart sp r h1 h2 h3
  obtain ⟨r1, hr1, hr1c⟩ := Option.map_eq_some'.mp a2
  obtain ⟨tsp, htsp⟩ := sndmap_singleton a3
  obtain ⟨tr2, r2, p1, p2, p3, p4, p5, pre2, p6⟩ :=
    toolPhase_c1 b.toolEvents (onTurnStart st b.tStart b.turnIndex b.timestamp b.ctxStart)
      sp tsp createTurnRollup r1 a1 hr1 htsp
  obtain ⟨e1, e2, e3, cspan, e4, e5⟩ :=
    onTurnEnd_c1
      (b.toolEvents.foldl toolEvtStep (onTurnStart st b.tStart b.turnIndex b.timestamp b.ctxStart))
      b.tEnd b.endMessage b.toolResults sp tsp tr2 r2 p1 p2 p3
  obtain ⟨r3, hr3, hr3c⟩ := Option.map_eq_some'.mp e2
  refine ⟨r3, e1, hr3, e3, ?_, pre2, cspan, ?_, ?_⟩
  · rw [hr3c, p5, hr1c]
  · rw [e4, p6, a4, List.append_assoc]
  · rw [e5, p4]
    simp [createTurnRollup]

/-- Folding any sequence of turn blocks preserves the open-thread shape
and adds the total tool-call count to the thread rollup. -/
theorem runBlocks_c1 (blocks : List TurnBlock) (st : ExtState) (sp : Span) (r : PromptRollup)
    (h1 : st.currentThreadSpan = some sp)
    (h2 : st.currentThreadRollup = some r)
    (h3 : st.openTurns = []) :
    ∃ r',
      (runBlocks st blocks).currentThreadSpan = some sp ∧
      (runBlocks st blocks).currentThreadRollup = some r' ∧
      (runBlocks st blocks).openTurns = [] ∧
      r'.toolCount = r.toolCount + (sumCalls blocks : Rat) := by
  induction blocks generalizing st r with
  | nil =>
    exact ⟨r, h1, h2, h3, by simp [sumCalls]⟩
  | cons b bs ih =>
    obtain ⟨r1, a1, a2, a3, a4, _, _, _, _⟩ := runBlock_c1 st b sp r h1 h2 h3
    obtain ⟨r2, k1, k2, k3, k4⟩ := ih (runBlock st b) r1 a1 a2 a3
    refine ⟨r2, by simpa [runBlocks] using k1, by simpa [runBlocks] using k2,
      by simpa [runBlocks] using k3, ?_⟩
    rw [k4, a4]
    simp only [sumCalls, List.map_cons, List.sum_cons]
    push_cast
    ring

theorem closeSpan_error_attributes (now : Rat) (span : Span) :
    (closeSpan now span .error).attributes = setAttr span.attributes "error" (.bool true) := by
  simp [closeSpan]

theorem threadFoldSpan_attributes (th : Span) (r : PromptRollup) (status : SpanStatus) :
    (threadFoldSpan th r status).attributes =
      setAttr (setAttrs th.attributes (promptRollupAttrs r)) "status"
        (.str (statusString status)) := by
  simp [threadFoldSpan, applyPromptRollupToSpan]

/-- `session_shutdown` over an open thread with no open turn: the
thread span is the last span exported, and its `tool.count` attribute
is exactly the thread rollup's `toolCount`. -/
theorem onSessionShutdown_c1 (st : ExtState) (now : Rat) (sp : Span) (r : PromptRollup)
    (h1 : st.currentThreadSpan = some sp)
    (h2 : st.currentThreadRollup = some r)
    (h3 : st.openTurns = []) :
    ∃ tspan, (onSessionShutdown st now).exported.getLast? = some tspan ∧
      getAttr tspan.attributes "tool.count" = some (.num r.toolCount) := by
  unfold onSessionShutdown
  rw [h1]
  dsimp only
  have h2b : ({ st with currentThreadSpan := some { sp with attributes := setAttrs sp.attributes [("status", AttrValue.str "error"), ("aborted", AttrValue.bool true)] } } : ExtState).currentThreadRollup = some r := h2
  rw [endThread_spec _ now .error _ r rfl h2b]
  dsimp only
  rw [h3]
  simp only [List.map_nil, List.append_nil]
  refine ⟨_, by rw [List.getLast?_concat], ?_⟩
  rw [closeSpan_error_attributes, threadFoldSpan_attributes,
    getAttr_setAttr_ne _ _ _ _ (show ("error" : String) ≠ "tool.count" by decide),
    getAttr_setAttr_ne _ _ _ _ (show ("status" : String) ≠ "tool.count" by decide)]
  exact getAttr_promptRollupAttrs_toolCount _ _

/-- C1: over any sequence of turn blocks (each a `turn_start`, an
arbitrary mix of tool calls and tool results, and a `turn_end`) run
from an open thread with a fresh tool counter, the closed turn span
exported by the i-th block carries `turn.tool.count` equal to the
number of tool-call events of that block even when results are missing
or unmatched, and after `session_shutdown` the thread span — the last
span exported — carries `tool.count` equal to the sum of those
per-turn counts. -/
theorem C1_tool_counts (blocks : List TurnBlock) (st0 : ExtState) (sp : Span)
    (r : PromptRollup) (tnow : Rat)
    (h1 : st0.currentThreadSpan = some sp)
    (h2 : st0.currentThreadRollup = some r)
    (h3 : st0.openTurns = [])
    (h4 : r.toolCount = 0) :
    (∀ i (hi : i < blocks.length),
      ∃ cspan, ((runBlocks st0 (blocks.take (i + 1))).exported).getLast? = some cspan ∧
        getAttr cspan.attributes "turn.tool.count" =
          some (.num (callCount blocks[i].toolEvents : Rat))) ∧
    ∃ tspan,
      ((step (runBlocks st0 blocks) tnow .sessionShutdown).exported).getLast? = some tspan ∧
      getAttr tspan.attributes "tool.count" = some (.num (sumCalls blocks : Rat)) := by
  constructor
  · intro i hi
    obtain ⟨rp, q1, q2, q3, _⟩ := runBlocks_c1 (blocks.take i) st0 sp r h1 h2 h3
    obtain ⟨r', _, _, _, _, pre, cspan, w1, w2⟩ :=
      runBlock_c1 (runBlocks st0 (blocks.take i)) blocks[i] sp rp q1 q2 q3
    refine ⟨cspan, ?_, w2⟩
    have htake : blocks.take (i + 1) = blocks.take i ++ [blocks[i]] := by
      rw [List.take_succ, List.getElem?_eq_getElem hi]
      rfl
    have hsplit : runBlocks st0 (blocks.take i ++ [blocks[i]]) =
        runBlock (runBlocks st0 (blocks.take i)) blocks[i] := by
      simp only [runBlocks, List.foldl_append, List.foldl_cons, List.foldl_nil]
    rw [htake, hsplit, w1, List.getLast?_concat]
  · obtain ⟨rB, c1, c2, c3, c4⟩ := runBlocks_c1 blocks st0 sp r h1 h2 h3
    rw [h4, zero_add] at c4
    obtain ⟨tspan, k1, k2⟩ := onSessionShutdown_c1 (runBlocks st0 blocks) tnow sp rB c1 c2 c3
    refine ⟨tspan, ?_, ?_⟩
    · simpa [step] using k1
    · rw [k2, c4]

/-- Witness for C1: one turn block with two tool calls (one result
missing); the turn span reports `turn.tool.count = 2` and the shutdown
thread span reports `tool.count = 2`. -/
theorem C1_tool_counts_witness :
    (∀ i (hi : i < [c1Block].length),
      ∃ cspan, ((runBlocks c1State ([c1Block].take (i + 1))).exported).getLast? = some cspan ∧
        getAttr cspan.attributes "turn.tool.count" =
          some (.num (callCount [c1Block][i].toolEvents : Rat))) ∧
    ∃ tspan,
      ((step (runBlocks c1State [c1Block]) 50 .sessionShutdown).exported).getLast? = some tspan ∧
      getAttr tspan.attributes "tool.count" = some (.num (sumCalls [c1Block] : Rat)) :=
  C1_tool_counts [c1Block] c1State (mkBlankSpan 1 2 none "Thread" 0) createPromptRollup 50
    rfl rfl rfl rfl
